import Mathlib

/-!
# manage-ses-templates: a shallow embedding of `main.go`

The program is a command-line tool: it loads credentials, parses one flag, runs
one of six handlers, and each handler talks to the remote e-mail service once
(or once per page for the listing).  Every function of `main.go` is embedded as
a Lean function from a `World` (everything the process reads: the command line,
standard input, the file system, the answers of the remote service) to an
`Outcome` (everything the process does, in order, and how it ends).

Go strings and byte slices are embedded as Lean strings; `string(html)` is the
identity on them.
-/

namespace SesTemplates

/-! ## Data model -/

/-- The `Template` struct of `main.go` (lines 23-27). -/
structure Template where
  Name : String
  Html : String
  Subject : String
  deriving DecidableEq, Repr

/-- The zero value of `Template`, what `var result Template` declares. -/
def Template.zero : Template := ⟨"", "", ""⟩

/-- The requests of the remote API that the program issues, with the fields the
program fills in. -/
inductive Request where
  | GetEmailTemplate (TemplateName : String)
  | ListEmailTemplates (PageSize : Nat) (NextToken : Option String)
  | CreateEmailTemplate (TemplateName Subject Html : String)
  | UpdateEmailTemplate (TemplateName Subject Html : String)
  | DeleteEmailTemplate (TemplateName : String)
  | SendEmail (TemplateData TemplateName : String) (ToAddresses : List String)
      (FromEmailAddress : String)
  deriving DecidableEq, Repr

/-- What the process does, one event per effect that is visible from outside. -/
inductive Event where
  /-- `fmt.Print(s)`. -/
  | print (s : String)
  /-- `fmt.Println(...)`, the operands already joined by blanks. -/
  | println (s : String)
  /-- `flag.Usage()`. -/
  | usage
  /-- The message of a `log.Fatalf`, which then ends the process with status 1. -/
  | fatal (msg : String)
  /-- The error line `flag.Parse` writes before it shows usage and exits. -/
  | flagError (msg : String)
  /-- One request sent to the remote service. -/
  | call (r : Request)
  deriving DecidableEq, Repr

/-- How a function ends: it returns to its caller, the process exits with a
status, or a panic leaves it unrecovered. -/
inductive Status where
  | returned
  | exited (code : Nat)
  | panicked (v : String)
  deriving DecidableEq, Repr

/-- The events of a run and the way it ended. -/
structure Outcome where
  trace : List Event
  status : Status
  deriving DecidableEq, Repr

/-- The exit status of the process when `main` ends with the given status: 0 on
return, the code of `os.Exit`, 2 for an unrecovered panic. -/
def Status.exitCode : Status → Nat
  | .returned => 0
  | .exited c => c
  | .panicked _ => 2

/-- `types.EmailTemplateContent` as far as `GetTemplate` reads it: two string
pointers, `none` for nil. -/
structure EmailTemplateContent where
  Subject : Option String
  Html : Option String
  deriving DecidableEq, Repr

/-- `types.EmailTemplateMetadata` as far as the listing reads it. -/
structure EmailTemplateMetadata where
  TemplateName : Option String
  deriving DecidableEq, Repr

/-- `sesv2.ListEmailTemplatesOutput`: one page of the listing. -/
structure ListEmailTemplatesOutput where
  TemplatesMetadata : List EmailTemplateMetadata
  NextToken : Option String
  deriving DecidableEq, Repr

/-- Everything the process reads from outside.  Library calls whose code is not
part of the repository (`godotenv`, the SDK configuration, `fmt.Scanf`,
`ioutil.ReadFile`, `json.Unmarshal`, the remote service) are taken as given
through these fields. -/
structure World where
  /-- The error of `godotenv.Load()`, `none` when the env file loads. -/
  envLoad : Option String
  /-- The error of `config.LoadDefaultConfig`, `none` when it succeeds. -/
  loadDefaultConfig : Option String
  /-- The command line after the program name (`os.Args[1:]`). -/
  args : List String
  /-- What the successive `fmt.Scanf("%s", _)` calls store, in order. -/
  stdin : List String
  /-- `ioutil.ReadFile`: the contents of a path, or the error. -/
  readFile : String → Except String String
  /-- `json.Unmarshal(data, &result)`: the record after the call and the error
  it returns (`none` for nil). -/
  unmarshal : String → Template → Template × Option String
  /-- The answer to `GetEmailTemplate`; the output's `TemplateContent` may be nil. -/
  getEmailTemplate : String → Except String (Option EmailTemplateContent)
  /-- The answer to the `n`-th `ListEmailTemplates` request of the run, sent with
  the given continuation token. -/
  listEmailTemplates : Nat → Option String → Except String ListEmailTemplatesOutput
  /-- The error of `CreateEmailTemplate` for a name, subject and body. -/
  createEmailTemplate : String → String → String → Option String
  /-- The error of `UpdateEmailTemplate` for a name, subject and body. -/
  updateEmailTemplate : String → String → String → Option String
  /-- The error of `DeleteEmailTemplate` for a name. -/
  deleteEmailTemplate : String → Option String
  /-- The error of `SendEmail` for a template name and a destination. -/
  sendEmail : String → String → Option String

/-- The value the `i`-th `fmt.Scanf("%s", &v)` of the run leaves in `v`; the
variable keeps its zero value when nothing is scanned. -/
def World.scan (w : World) (i : Nat) : String := w.stdin.getD i ""

/-- The message that is the text of the runtime panic for a nil pointer dereference. -/
def nilDeref : String := "runtime error: invalid memory address or nil pointer dereference"

/-! ## `encoding/json` on a `Template`

The world takes `json.Unmarshal` as given.  The definitions of this section are
the decoder the standard library supplies, written out for a destination of
type `*Template`: the syntax check over the whole input by the scanner's state
machine, then the decoding of the members of the top-level object.  The error
values keep only their kind, the program never reads them. -/

namespace Json

/-- The scanner's `step` functions, one constructor per state. -/
inductive Step where
  | beginValue | beginValueOrEmpty | beginStringOrEmpty | beginString
  | endValue | endTop
  | inString | inStringEsc | inStringEscU | inStringEscU1 | inStringEscU12 | inStringEscU123
  | neg | zero | one | dot | dot0 | e | eSign | e0
  | t | tr | tru | f | fa | fal | fals | n | nu | nul
  | error
  deriving DecidableEq, Repr

/-- What the scanner is inside of: an object before a key's colon, an object
after it, an array. -/
inductive ParseState where
  | objectKey | objectValue | arrayValue
  deriving DecidableEq, Repr

/-- The scanner's return codes. -/
inductive Op where
  | continue | beginLiteral | beginObject | objectKey | objectValue | endObject
  | beginArray | arrayValue | endArray | skipSpace | end | error
  deriving DecidableEq, Repr

/-- The scanner: the current step, the stack of enclosing composites (innermost
first), whether the top-level value ended, whether an error was recorded. -/
structure Scanner where
  step : Step
  parseState : List ParseState
  endTop : Bool
  err : Bool
  deriving DecidableEq, Repr

/-- `scanner.reset`. -/
def Scanner.reset : Scanner := ⟨.beginValue, [], false, false⟩

/-- The nesting depth above which the scanner gives up. -/
def maxNestingDepth : Nat := 10000

def isSpace (c : Char) : Bool := c == ' ' || c == '\t' || c == '\r' || c == '\n'

def isDigit (c : Char) : Bool := '0' ≤ c && c ≤ '9'

def isHex (c : Char) : Bool :=
  ('0' ≤ c && c ≤ '9') || ('a' ≤ c && c ≤ 'f') || ('A' ≤ c && c ≤ 'F')

/-- `scanner.error`: record the error and stay in the error state. -/
def Scanner.fail (s : Scanner) : Scanner × Op := ({ s with step := .error, err := true }, .error)

/-- Move to another step and go on inside the literal. -/
def Scanner.goto (s : Scanner) (st : Step) : Scanner × Op := ({ s with step := st }, .continue)

/-- `pushParseState`, after the step was set to `st`. -/
def Scanner.push (s : Scanner) (st : Step) (ps : ParseState) (op : Op) : Scanner × Op :=
  let s1 := { s with step := st, parseState := ps :: s.parseState }
  if s1.parseState.length ≤ maxNestingDepth then (s1, op) else s1.fail

/-- `popParseState`. -/
def Scanner.pop (s : Scanner) : Scanner :=
  match s.parseState.tail with
  | [] => { s with parseState := [], step := .endTop, endTop := true }
  | rest => { s with parseState := rest, step := .endValue }

/-- `stateEndTop`. -/
def stateEndTop (s : Scanner) (c : Char) : Scanner × Op :=
  if !isSpace c then ((s.fail).1, .end) else (s, .end)

/-- `stateEndValue`. -/
def stateEndValue (s : Scanner) (c : Char) : Scanner × Op :=
  match s.parseState with
  | [] => stateEndTop { s with step := .endTop, endTop := true } c
  | ps :: rest =>
    if isSpace c then ({ s with step := .endValue }, .skipSpace)
    else
      match ps with
      | .objectKey =>
        if c == ':' then
          ({ s with parseState := .objectValue :: rest, step := .beginValue }, .objectKey)
        else s.fail
      | .objectValue =>
        if c == ',' then
          ({ s with parseState := .objectKey :: rest, step := .beginString }, .objectValue)
        else if c == '}' then (s.pop, .endObject)
        else s.fail
      | .arrayValue =>
        if c == ',' then ({ s with step := .beginValue }, .arrayValue)
        else if c == ']' then (s.pop, .endArray)
        else s.fail

/-- `stateBeginValue`. -/
def stateBeginValue (s : Scanner) (c : Char) : Scanner × Op :=
  if isSpace c then (s, .skipSpace)
  else if c == '{' then s.push .beginStringOrEmpty .objectKey .beginObject
  else if c == '[' then s.push .beginValueOrEmpty .arrayValue .beginArray
  else if c == '"' then ({ s with step := .inString }, .beginLiteral)
  else if c == '-' then ({ s with step := .neg }, .beginLiteral)
  else if c == '0' then ({ s with step := .zero }, .beginLiteral)
  else if c == 't' then ({ s with step := .t }, .beginLiteral)
  else if c == 'f' then ({ s with step := .f }, .beginLiteral)
  else if c == 'n' then ({ s with step := .n }, .beginLiteral)
  else if '1' ≤ c && c ≤ '9' then ({ s with step := .one }, .beginLiteral)
  else s.fail

/-- `stateBeginString`. -/
def stateBeginString (s : Scanner) (c : Char) : Scanner × Op :=
  if isSpace c then (s, .skipSpace)
  else if c == '"' then ({ s with step := .inString }, .beginLiteral)
  else s.fail

/-- `state0`. -/
def state0 (s : Scanner) (c : Char) : Scanner × Op :=
  if c == '.' then s.goto .dot
  else if c == 'e' || c == 'E' then s.goto .e
  else stateEndValue s c

/-- `stateESign`. -/
def stateESign (s : Scanner) (c : Char) : Scanner × Op :=
  if isDigit c then s.goto .e0 else s.fail

/-- One byte through the scanner: `s.step(s, c)`. -/
def Scanner.next (s : Scanner) (c : Char) : Scanner × Op :=
  match s.step with
  | .beginValue => stateBeginValue s c
  | .beginValueOrEmpty =>
    if isSpace c then (s, .skipSpace)
    else if c == ']' then stateEndValue s c
    else stateBeginValue s c
  | .beginStringOrEmpty =>
    if isSpace c then (s, .skipSpace)
    else if c == '}' then
      stateEndValue { s with parseState := .objectValue :: s.parseState.tail } c
    else stateBeginString s c
  | .beginString => stateBeginString s c
  | .endValue => stateEndValue s c
  | .endTop => stateEndTop s c
  | .inString =>
    if c == '"' then s.goto .endValue
    else if c == '\\' then s.goto .inStringEsc
    else if c.toNat < 0x20 then s.fail
    else (s, .continue)
  | .inStringEsc =>
    if c == 'b' || c == 'f' || c == 'n' || c == 'r' || c == 't' || c == '\\' || c == '/'
        || c == '"' then s.goto .inString
    else if c == 'u' then s.goto .inStringEscU
    else s.fail
  | .inStringEscU => if isHex c then s.goto .inStringEscU1 else s.fail
  | .inStringEscU1 => if isHex c then s.goto .inStringEscU12 else s.fail
  | .inStringEscU12 => if isHex c then s.goto .inStringEscU123 else s.fail
  | .inStringEscU123 => if isHex c then s.goto .inString else s.fail
  | .neg =>
    if c == '0' then s.goto .zero
    else if '1' ≤ c && c ≤ '9' then s.goto .one
    else s.fail
  | .one => if isDigit c then s.goto .one else state0 s c
  | .zero => state0 s c
  | .dot => if isDigit c then s.goto .dot0 else s.fail
  | .dot0 =>
    if isDigit c then (s, .continue)
    else if c == 'e' || c == 'E' then s.goto .e
    else stateEndValue s c
  | .e => if c == '+' || c == '-' then s.goto .eSign else stateESign s c
  | .eSign => stateESign s c
  | .e0 => if isDigit c then (s, .continue) else stateEndValue s c
  | .t => if c == 'r' then s.goto .tr else s.fail
  | .tr => if c == 'u' then s.goto .tru else s.fail
  | .tru => if c == 'e' then s.goto .endValue else s.fail
  | .f => if c == 'a' then s.goto .fa else s.fail
  | .fa => if c == 'l' then s.goto .fal else s.fail
  | .fal => if c == 's' then s.goto .fals else s.fail
  | .fals => if c == 'e' then s.goto .endValue else s.fail
  | .n => if c == 'u' then s.goto .nu else s.fail
  | .nu => if c == 'l' then s.goto .nul else s.fail
  | .nul => if c == 'l' then s.goto .endValue else s.fail
  | .error => (s, .error)

/-- `scanner.eof`: whether the input may end here. -/
def Scanner.eof (s : Scanner) : Bool :=
  if s.err then false
  else if s.endTop then true
  else (s.next ' ').1.endTop

/-- `checkValid`: run the scanner over the input, stop at the first error code,
then ask whether the input may end. -/
def checkValidFrom : Scanner → List Char → Bool
  | s, [] => s.eof
  | s, c :: cs =>
    match s.next c with
    | (_, .error) => false
    | (s1, _) => checkValidFrom s1 cs

def checkValid (data : String) : Bool := checkValidFrom Scanner.reset data.data

/-! ### Quoted strings -/

/-- The value of a hexadecimal digit. -/
def hexVal (c : Char) : Option Nat :=
  if '0' ≤ c && c ≤ '9' then some (c.toNat - '0'.toNat)
  else if 'a' ≤ c && c ≤ 'f' then some (c.toNat - 'a'.toNat + 10)
  else if 'A' ≤ c && c ≤ 'F' then some (c.toNat - 'A'.toNat + 10)
  else none

/-- The number written by four hexadecimal digits. -/
def hex4 (a b c d : Char) : Option Nat :=
  match hexVal a, hexVal b, hexVal c, hexVal d with
  | some x, some y, some z, some u => some (((x * 16 + y) * 16 + z) * 16 + u)
  | _, _, _, _ => none

/-- `getu4`: the code unit of a leading `\uXXXX`, when the text starts with one. -/
def getu4 : List Char → Option Nat
  | b :: u :: x1 :: x2 :: x3 :: x4 :: _ =>
    if b == '\\' && u == 'u' then hex4 x1 x2 x3 x4 else none
  | _ => none

/-- `utf16.IsSurrogate`. -/
def isSurrogate (r : Nat) : Bool := 0xD800 ≤ r && r < 0xE000

/-- `utf16.DecodeRune`: the code point of a surrogate pair, `none` where Go
returns the replacement character. -/
def decodeSurrogates (r1 : Nat) (r2 : Option Nat) : Option Nat :=
  match r2 with
  | none => none
  | some r2 =>
    if 0xD800 ≤ r1 && r1 < 0xDC00 && 0xDC00 ≤ r2 && r2 < 0xE000 then
      some ((r1 - 0xD800) * 0x400 + (r2 - 0xDC00) + 0x10000)
    else none

/-- The Unicode replacement character. -/
def replacementChar : Char := Char.ofNat 0xFFFD

/-- The character a one-letter escape stands for. -/
def escapeChar (c : Char) : Option Char :=
  if c == '"' || c == '\\' || c == '/' || c == Char.ofNat 39 then some c
  else if c == 'b' then some (Char.ofNat 8)
  else if c == 'f' then some (Char.ofNat 12)
  else if c == 'n' then some '\n'
  else if c == 'r' then some '\r'
  else if c == 't' then some '\t'
  else none

/-- The body of `unquoteBytes`, on the text between the quotes: escapes are
replaced by what they stand for, a surrogate pair `\uD83D\uDE00` by its code
point, a surrogate without partner by the replacement character. -/
def unquoteBody : List Char → Option (List Char)
  | [] => some []
  | c :: rest =>
    if c == '\\' then
      match rest with
      | [] => none
      | e :: rest1 =>
        if e == 'u' then
          match rest1 with
          | x1 :: x2 :: x3 :: x4 :: rest2 =>
            match hex4 x1 x2 x3 x4 with
            | none => none
            | some rr =>
              if isSurrogate rr then
                match decodeSurrogates rr (getu4 rest2) with
                | some dec =>
                  match rest2 with
                  | _ :: _ :: _ :: _ :: _ :: _ :: rest3 =>
                    (unquoteBody rest3).map (Char.ofNat dec :: ·)
                  | _ => none
                | none => (unquoteBody rest2).map (replacementChar :: ·)
              else (unquoteBody rest2).map (Char.ofNat rr :: ·)
          | _ => none
        else
          match escapeChar e with
          | none => none
          | some x => (unquoteBody rest1).map (x :: ·)
    else if c == '"' || c.toNat < 0x20 then none
    else (unquoteBody rest).map (c :: ·)

/-- `unquote`: the string a quoted literal (quotes included) stands for. -/
def unquote (lit : List Char) : Option String :=
  match lit with
  | q :: rest =>
    if q == '"' && rest.getLast? == some '"' then (unquoteBody rest.dropLast).map String.mk
    else none
  | [] => none

/-! ### Decoding into a `Template` -/

/-- The three fields of `Template`, by their JSON names `name`, `html`, `subject`. -/
inductive Field where
  | Name | Html | Subject
  deriving DecidableEq, Repr

/-- `foldName` on one character: ASCII letters in upper case, and the two
characters outside ASCII whose case folding is an ASCII letter. -/
def foldChar (c : Char) : Char :=
  if 'a' ≤ c && c ≤ 'z' then Char.ofNat (c.toNat - 32)
  else if c.toNat == 0x17F then 'S'
  else if c.toNat == 0x212A then 'K'
  else c

/-- The field an object key selects: the field with that JSON name, compared
without regard to case. -/
def matchField (key : String) : Option Field :=
  let k := key.data.map foldChar
  if k == "NAME".data then some .Name
  else if k == "HTML".data then some .Html
  else if k == "SUBJECT".data then some .Subject
  else none

def Field.set (f : Field) (t : Template) (v : String) : Template :=
  match f with
  | .Name => { t with Name := v }
  | .Html => { t with Html := v }
  | .Subject => { t with Subject := v }

/-- What the top-level value turned out to be. -/
inductive Top where
  | pending | object | other
  deriving DecidableEq, Repr

/-- The decoder beside the scanner: the literal being read among the members of
the top-level object (its characters, last first) and whether it is a key, the
key of the member whose value comes next, the record so far and the first
type error (`decodeState.savedError`). -/
structure Decoder where
  top : Top
  lit : Option (List Char)
  isKey : Bool
  key : Option String
  result : Template
  saved : Option String
  deriving DecidableEq, Repr

/-- `decodeState.saveError`: keep the first error. -/
def Decoder.saveError (d : Decoder) (err : String) : Decoder :=
  match d.saved with
  | some _ => d
  | none => { d with saved := some err }

/-- The field the pending member's value goes to, if its key names one. -/
def Decoder.field (d : Decoder) : Option Field := d.key.bind matchField

/-- `literalStore` into a string field: a string is stored, `null` leaves the
field as it is, a boolean or a number is a type error. -/
def Decoder.store (d : Decoder) (lit : List Char) : Decoder :=
  match d.field with
  | none => d
  | some f =>
    match lit with
    | [] => d
    | c :: _ =>
      if c == '"' then
        match unquote lit with
        | some v => { d with result := f.set d.result v }
        | none => d.saveError "UnmarshalTypeError"
      else if c == 'n' then d
      else d.saveError "UnmarshalTypeError"

/-- Close the literal being read, if the scanner left it: a key becomes the
pending key, a value is stored. -/
def Decoder.close (d : Decoder) : Decoder :=
  match d.lit with
  | none => d
  | some l =>
    if d.isKey then { d with lit := none, key := unquote l.reverse }
    else { (d.store l.reverse) with lit := none }

/-- The decoder's reaction to one byte `c` for which the scanner, with the
stack `ps` before the byte, returned `op`. -/
def Decoder.feed (d : Decoder) (ps : List ParseState) (op : Op) (c : Char) : Decoder :=
  match d.lit, op with
  | some l, .continue => { d with lit := some (c :: l) }
  | _, _ =>
    let d := d.close
    match op, ps with
    | .beginLiteral, [] =>
      -- a literal for the whole record: `null` is accepted, anything else is a type error
      if c == 'n' then { d with top := .other }
      else { d.saveError "UnmarshalTypeError" with top := .other }
    | .beginLiteral, [p] =>
      if d.top == .object then { d with lit := some [c], isKey := p == .objectKey } else d
    | .beginObject, [] => { d with top := .object }
    | .beginArray, [] => { d.saveError "UnmarshalTypeError" with top := .other }
    | .beginObject, [_] | .beginArray, [_] =>
      -- an object or an array where a string field expects its value
      if d.top == .object && d.field.isSome then d.saveError "UnmarshalTypeError" else d
    | _, _ => d

/-- Scanner and decoder side by side over the input. -/
def decodeFrom : Scanner → Decoder → List Char → Decoder
  | _, d, [] => d.close
  | s, d, c :: cs =>
    match s.next c with
    | (s1, op) => decodeFrom s1 (d.feed s.parseState op c) cs

end Json

/-- `json.Unmarshal(data, &result)` for `result : Template`: a syntax error
anywhere in the input leaves the record untouched; otherwise the members of the
top-level object are decoded in order, and the first type error is returned
after the rest was decoded. -/
def jsonUnmarshal (data : String) (result : Template) : Template × Option String :=
  if Json.checkValid data then
    let d := Json.decodeFrom Json.Scanner.reset ⟨.pending, none, false, none, result, none⟩ data.data
    (d.result, d.saved)
  else (result, some "SyntaxError")


/-! ## `Configuration` (lines 61-78) -/

/-- `Configuration`: load the env file, then the SDK configuration; either
failure is fatal.  Status `returned` stands for the client handle being
returned to `main`; building it sends nothing to the remote service. -/
def Configuration (w : World) : Outcome :=
  match w.envLoad with
  | some err => ⟨[.fatal ("[ENV ERROR] " ++ err)], .exited 1⟩
  | none =>
    match w.loadDefaultConfig with
    | some err => ⟨[.fatal ("Unable to load SDK config, " ++ err)], .exited 1⟩
    | none => ⟨[], .returned⟩

/-! ## `SetTemplate` (lines 174-231) -/

/-- Lines 176-196 of `SetTemplate`: prompt for the file name, read the JSON file,
decode it into `result` (the error of `json.Unmarshal` is dropped), read the
HTML file and store it in `result.Html`.  A read error is fatal. -/
def SetTemplate.load (w : World) : Outcome × Option Template :=
  let filename := w.scan 0
  let prompt := Event.print "미리 생성한 템플릿 설정 파일 이름: "
  let result := Template.zero
  match w.readFile ("./templates/" ++ filename ++ ".json") with
  | .error err => (⟨[prompt, .fatal ("[ERROR] " ++ err)], .exited 1⟩, none)
  | .ok data =>
    let result := (w.unmarshal data result).1
    match w.readFile ("./templates/" ++ filename ++ ".html") with
    | .error err => (⟨[prompt, .fatal ("[ERROR] " ++ err)], .exited 1⟩, none)
    | .ok html =>
      let result := { result with Html := html }
      (⟨[prompt], .returned⟩, some result)

/-- Lines 198-230 of `SetTemplate`: send the record as a create request or as an
update request, and print the confirmation unless the request fails. -/
def SetTemplate.send (w : World) (isCreate : Bool) (result : Template) : Outcome :=
  if isCreate then
    let input := Request.CreateEmailTemplate result.Name result.Subject result.Html
    match w.createEmailTemplate result.Name result.Subject result.Html with
    | some err => ⟨[.call input, .fatal ("[ERROR] " ++ err)], .exited 1⟩
    | none => ⟨[.call input, .println "템플릿 생성 완료"], .returned⟩
  else
    let input := Request.UpdateEmailTemplate result.Name result.Subject result.Html
    match w.updateEmailTemplate result.Name result.Subject result.Html with
    | some err => ⟨[.call input, .fatal ("[ERROR] " ++ err)], .exited 1⟩
    | none => ⟨[.call input, .println "템플릿 업데이트 완료"], .returned⟩

/-- `SetTemplate`: build the record from the two files, then send it. -/
def SetTemplate (w : World) (isCreate : Bool) : Outcome :=
  match SetTemplate.load w with
  | (o, none) => o
  | (o, some result) =>
    let s := SetTemplate.send w isCreate result
    ⟨o.trace ++ s.trace, s.status⟩

/-! ## `DeleteTemplate` (lines 80-92), `GetTemplate` (94-107), `SendEmail` (142-172) -/

/-- `DeleteTemplate`: prompt for a name, send the delete request, confirm. -/
def DeleteTemplate (w : World) : Outcome :=
  let name := w.scan 0
  let prompt := Event.print "삭제하고자 하는 템플릿 이름: "
  let input := Request.DeleteEmailTemplate name
  match w.deleteEmailTemplate name with
  | some err => ⟨[prompt, .call input, .fatal ("[ERROR] " ++ err)], .exited 1⟩
  | none => ⟨[prompt, .call input, .println "템플릿 삭제 완료"], .returned⟩

/-- `GetTemplate`: prompt for a name, fetch the template, print its subject and
its body.  The two `Println` calls dereference `output.TemplateContent.Subject`
and `.Html`; a nil pointer there panics, and nothing recovers it. -/
def GetTemplate (w : World) : Outcome :=
  let name := w.scan 0
  let prompt := Event.print "찾고자 하는 템플릿 이름: "
  let input := Request.GetEmailTemplate name
  match w.getEmailTemplate name with
  | .error err => ⟨[prompt, .call input, .fatal ("[ERROR] " ++ err)], .exited 1⟩
  | .ok none => ⟨[prompt, .call input], .panicked nilDeref⟩
  | .ok (some content) =>
    match content.Subject with
    | none => ⟨[prompt, .call input], .panicked nilDeref⟩
    | some subject =>
      let line1 := Event.println ("템플릿 제목: " ++ " " ++ subject)
      match content.Html with
      | none => ⟨[prompt, .call input, line1], .panicked nilDeref⟩
      | some html =>
        ⟨[prompt, .call input, line1, .println ("템플릿 내용: " ++ " " ++ html)], .returned⟩

/-- `SendEmail`: prompt for a template name and a destination, send the test
mail with the fixed template data and the fixed sender, confirm. -/
def SendEmail (w : World) : Outcome :=
  let name := w.scan 0
  let target := w.scan 1
  let prompts := [Event.print "메일을 보낼 템플릿 이름: ", Event.print "송신할 이메일 주소: "]
  let input := Request.SendEmail "\x7b \"name\": \"테스팅\" \x7d" name [target] "Plip <contact@plip.kr>"
  match w.sendEmail name target with
  | some err => ⟨prompts ++ [.call input, .fatal ("[ERROR] " ++ err)], .exited 1⟩
  | none => ⟨prompts ++ [.call input, .println "이메일 전송 완료"], .returned⟩

/-! ## `GetTemplates` (lines 109-140) -/

/-- The state of the SDK's `ListEmailTemplatesPaginator`: the continuation token
of the last page and whether no page was fetched yet.  `requests` counts the
requests sent so far; it only selects the answer of the world. -/
structure ListEmailTemplatesPaginator where
  nextToken : Option String
  firstPage : Bool
  requests : Nat
  deriving DecidableEq, Repr

/-- `sesv2.NewListEmailTemplatesPaginator`. -/
def NewListEmailTemplatesPaginator : ListEmailTemplatesPaginator := ⟨none, true, 0⟩

/-- A continuation token that asks for another page: non-nil and non-empty. -/
def tokenPresent : Option String → Bool
  | none => false
  | some t => t.length != 0

/-- `HasMorePages`: true before the first page, and afterwards while the last
page carried a non-empty continuation token. -/
def ListEmailTemplatesPaginator.HasMorePages (p : ListEmailTemplatesPaginator) : Bool :=
  p.firstPage || tokenPresent p.nextToken

/-- `NextPage`, called when `HasMorePages` holds: send one request with the
current token; an error leaves the paginator as it is, a page moves it on. -/
def ListEmailTemplatesPaginator.NextPage (w : World) (p : ListEmailTemplatesPaginator) :
    Except String ListEmailTemplatesOutput × ListEmailTemplatesPaginator :=
  match w.listEmailTemplates p.requests p.nextToken with
  | .error err => (.error err, { p with requests := p.requests + 1 })
  | .ok output => (.ok output, ⟨output.NextToken, false, p.requests + 1⟩)

/-- The inner loop (lines 127-129): append `*elem.TemplateName` for each element;
`none` when a name pointer is nil and the dereference panics. -/
def appendNames : List String → List EmailTemplateMetadata → Option (List String)
  | list, [] => some list
  | list, elem :: rest =>
    match elem.TemplateName with
    | none => none
    | some name => appendNames (list ++ [name]) rest

/-- How the page loop of `GetTemplates` ends. -/
inductive Drained where
  /-- `HasMorePages` became false; the accumulated list. -/
  | done (list : List String)
  /-- `NextPage` returned an error. -/
  | pageError (err : String)
  /-- A nil `TemplateName` was dereferenced. -/
  | panic
  deriving DecidableEq, Repr

/-- The page loop (lines 121-130) from a paginator state and the list so far.
Each iteration sends one request.  The loop need not end (the service may hand
out tokens for ever), so the number of iterations is bounded by `fuel`; `none`
in the second component means the bound was reached. -/
def drainPages (w : World) : Nat → ListEmailTemplatesPaginator → List String →
    List Event × Option Drained
  | 0, _, _ => ([], none)
  | fuel + 1, p, list =>
    if p.HasMorePages then
      let req := Event.call (.ListEmailTemplates 10 p.nextToken)
      match p.NextPage w with
      | (.error err, _) => ([req], some (.pageError err))
      | (.ok output, p') =>
        match appendNames list output.TemplatesMetadata with
        | none => ([req], some .panic)
        | some list' =>
          let r := drainPages w fuel p' list'
          (req :: r.1, r.2)
    else ([], some (.done list))

/-- `GetTemplates`: drain the paginator, then print the names or the message for
an empty listing.  A page error is fatal; a panic reaches the deferred function,
whose `recover` turns it into a fatal error as well.  `none` when `fuel`
iterations did not end the loop. -/
def GetTemplates (w : World) (fuel : Nat) : Option Outcome :=
  match drainPages w fuel NewListEmailTemplatesPaginator [] with
  | (_, none) => none
  | (tr, some (.pageError err)) =>
    some ⟨tr ++ [.fatal ("[ERROR] Pagination error, " ++ err ++ "\n")], .exited 1⟩
  | (tr, some .panic) =>
    some ⟨tr ++ [.fatal ("[ERROR] " ++ nilDeref ++ "\n")], .exited 1⟩
  | (tr, some (.done list)) =>
    if list.length == 0 then
      some ⟨tr ++ [.println "생성된 템플릿이 없습니다."], .returned⟩
    else
      some ⟨tr ++ .println "=-=-=- 조회 결과 -=-=-=" :: list.map Event.println, .returned⟩

/-! ## The command line (lines 34-42): package `flag` with the single flag `type` -/

/-- How `flag.Parse()` ends with error handling `ExitOnError`: it returns with
the number of flags that were set (`flag.NFlag()`) and the value of `type`, or it
has written the events and ended the process with the status. -/
inductive Parsed where
  | ok (nflag : Nat) (type : String)
  | exit (events : List Event) (code : Nat)
  deriving DecidableEq, Repr

/-- Split a flag's text at the first `=` that is not its first character: the
name, and the value when there is one. -/
def splitFlag : List Char → List Char × Option (List Char)
  | [] => ([], none)
  | c :: cs =>
    match cs.span (fun x => x != '=') with
    | (name, []) => (c :: name, none)
    | (name, _ :: value) => (c :: name, some value)

/-- The `FlagSet.Parse` loop over `parseOne`, with only `type` defined (a string
flag, default `get`).  An argument that is not of the form `-x...` or is `--`
ends the flags; `-type=v`, `--type=v`, `-type v` set the flag; `-h` and `-help`
show usage and exit 0; anything else reports the error, shows usage and exits 2.
`nflag` and `type` are the state so far. -/
def flagParseFrom : List String → Nat → String → Parsed
  | [], nflag, type => .ok nflag type
  | s :: rest, nflag, type =>
    match s.data with
    | '-' :: c :: cs =>
      if c == '-' && cs.isEmpty then .ok nflag type
      else
        let name := if c == '-' then cs else c :: cs
        if name.head? == some '-' || name.head? == some '=' then
          .exit [.flagError ("bad flag syntax: " ++ s), .usage] 2
        else
          match splitFlag name with
          | (name, value) =>
            if String.mk name == "type" then
              match value with
              | some v => flagParseFrom rest 1 (String.mk v)
              | none =>
                match rest with
                | v :: rest' => flagParseFrom rest' 1 v
                | [] =>
                  .exit [.flagError ("flag needs an argument: -" ++ String.mk name), .usage] 2
            else if String.mk name == "help" || String.mk name == "h" then
              .exit [.usage] 0
            else
              .exit [.flagError ("flag provided but not defined: -" ++ String.mk name),
                .usage] 2
    | _ => .ok nflag type

/-- `flag.String("type", "get", ...)` followed by `flag.Parse()`. -/
def flagParse (args : List String) : Parsed := flagParseFrom args 0 "get"

/-! ## `main` (lines 29-59) -/

/-- The events of `pre`, then the outcome `o`. -/
def Outcome.after (pre : List Event) (o : Outcome) : Outcome := ⟨pre ++ o.trace, o.status⟩

/-- The `if`/`else if` chain of `main` (lines 44-58) on the value of `type`. -/
def dispatch (w : World) (fuel : Nat) (type : String) : Option Outcome :=
  if type == "get" then some (GetTemplate w)
  else if type == "list" then GetTemplates w fuel
  else if type == "create" then some (SetTemplate w true)
  else if type == "delete" then some (DeleteTemplate w)
  else if type == "update" then some (SetTemplate w false)
  else if type == "test" then some (SendEmail w)
  else some ⟨[.usage], .returned⟩

/-- `main`: build the client, parse the command line, show usage when no flag was
set, otherwise run the handler for the value of `type`.  `none` when the listing
did not end within `fuel` pages. -/
def main (w : World) (fuel : Nat) : Option Outcome :=
  let client := Configuration w
  match client.status with
  | .returned =>
    match flagParse w.args with
    | .exit events code => some ⟨client.trace ++ events, .exited code⟩
    | .ok nflag type =>
      if nflag == 0 then some ⟨client.trace ++ [.usage], .returned⟩
      else (dispatch w fuel type).map (Outcome.after client.trace)
  | _ => some client

/-! ## Vocabulary of the statements -/

/-- The requests sent to the remote service in a trace, in order. -/
def calls : List Event → List Request
  | [] => []
  | .call r :: rest => r :: calls rest
  | _ :: rest => calls rest

/-- The six values of `type` that select a handler. -/
def operations : List String := ["get", "list", "create", "delete", "update", "test"]

/-- The line printed for an empty listing. -/
def noneFound : String := "생성된 템플릿이 없습니다."

/-- The line printed above a non-empty listing. -/
def resultHeader : String := "=-=-=- 조회 결과 -=-=-="

/-- The names on one page, in the page's order (elements without a name left out). -/
def pageNames (page : ListEmailTemplatesOutput) : List String :=
  page.TemplatesMetadata.filterMap (·.TemplateName)

/-- The names on a sequence of pages: page after page, each in its own order. -/
def allNames (pages : List ListEmailTemplatesOutput) : List String :=
  (pages.map pageNames).flatten

/-- Every template on every page has a name (no nil `TemplateName`). -/
def Named (pages : List ListEmailTemplatesOutput) : Prop :=
  ∀ page ∈ pages, ∀ elem ∈ page.TemplatesMetadata, elem.TemplateName ≠ none

/-- The remote service answers the requests number `i`, `i + 1`, ... with the
given pages, where request `i` carries the token `tok` and each later request
the token of the page before it, and every one of these pages carries a
non-empty token, so that the paginator asks for more. -/
def ServesOn (w : World) : Nat → Option String → List ListEmailTemplatesOutput → Prop
  | _, _, [] => True
  | i, tok, page :: rest =>
    w.listEmailTemplates i tok = .ok page ∧ tokenPresent page.NextToken = true ∧
      ServesOn w (i + 1) page.NextToken rest

/-- The token the paginator holds after the given pages, starting from `tok`. -/
def tokenAfter : Option String → List ListEmailTemplatesOutput → Option String
  | tok, [] => tok
  | _, page :: rest => tokenAfter page.NextToken rest

/-- The remote service answers a fresh paginator with exactly the pages
`init ++ [last]`: the pages of `init` ask for more, `last` carries no token. -/
def Serves (w : World) (init : List ListEmailTemplatesOutput)
    (last : ListEmailTemplatesOutput) : Prop :=
  ServesOn w 0 none init ∧
    w.listEmailTemplates init.length (tokenAfter none init) = .ok last ∧
    tokenPresent last.NextToken = false

/-- The requests the paginator sends for the given pages, the first with `tok`. -/
def requestsFor : Option String → List ListEmailTemplatesOutput → List Event
  | _, [] => []
  | tok, page :: rest => .call (.ListEmailTemplates 10 tok) :: requestsFor page.NextToken rest

/-- The lines a trace prints with `fmt.Println`, in order. -/
def printedLines : List Event → List String
  | [] => []
  | .println line :: rest => line :: printedLines rest
  | _ :: rest => printedLines rest

/-- The paginator after it fetched the given pages. -/
def paginatorAfter : ListEmailTemplatesPaginator → List ListEmailTemplatesOutput →
    ListEmailTemplatesPaginator
  | p, [] => p
  | p, page :: rest => paginatorAfter ⟨page.NextToken, false, p.requests + 1⟩ rest

/-! ## Worlds for the examples -/

/-- A file system holding the listed files and nothing else. -/
def filesOf (files : List (String × String)) (path : String) : Except String String :=
  match files.lookup path with
  | some content => .ok content
  | none => .error ("open " ++ path ++ ": no such file or directory")

/-- A world where the configuration loads, `json.Unmarshal` is the decoder of
section `Json`, the remote service accepts every request and has no template. -/
def worldOf (args stdin : List String) (files : List (String × String)) : World where
  envLoad := none
  loadDefaultConfig := none
  args := args
  stdin := stdin
  readFile := filesOf files
  unmarshal := jsonUnmarshal
  getEmailTemplate := fun _ => .error "NotFoundException"
  listEmailTemplates := fun _ _ => .ok ⟨[], none⟩
  createEmailTemplate := fun _ _ _ => none
  updateEmailTemplate := fun _ _ _ => none
  deleteEmailTemplate := fun _ => none
  sendEmail := fun _ _ => none

/-- The scenario of the specification: `welcome.json` and `welcome.html`. -/
def welcomeFiles : List (String × String) :=
  [("./templates/welcome.json", "\x7b\"name\":\"welcome\",\"subject\":\"Hi\"\x7d"),
   ("./templates/welcome.html", "<p>Hello</p>")]

/-- A metadata file that also gives an `html` member. -/
def promoFiles : List (String × String) :=
  [("./templates/promo.json",
      "\x7b\"name\":\"promo\",\"html\":\"<b>from json</b>\",\"subject\":\"Sale\"\x7d"),
   ("./templates/promo.html", "<p>from file</p>")]

/-- A metadata file cut off after its first byte, beside a body file. -/
def brokenFiles : List (String × String) :=
  [("./templates/broken.json", "\x7b"), ("./templates/broken.html", "<p>Hello</p>")]

/-- A listing whose second page request is rejected. -/
def throttledListing (n : Nat) (tok : Option String) : Except String ListEmailTemplatesOutput :=
  match n, tok with
  | 0, none => .ok ⟨[⟨some "welcome"⟩], some "t1"⟩
  | _, _ => .error "ThrottlingException"

/-- A listing whose only page holds a template without name. -/
def namelessListing (_ : Nat) (_ : Option String) : Except String ListEmailTemplatesOutput :=
  .ok ⟨[⟨some "welcome"⟩, ⟨none⟩], none⟩

/-- A listing of three templates on two pages. -/
def twoPages (n : Nat) (tok : Option String) : Except String ListEmailTemplatesOutput :=
  match n, tok with
  | 0, none => .ok ⟨[⟨some "welcome"⟩, ⟨some "promo"⟩], some "t1"⟩
  | 1, some "t1" => .ok ⟨[⟨some "receipt"⟩], none⟩
  | _, _ => .error "InvalidNextToken"

/-! ## `SetTemplate`: the record and the request -/

/-- The outcome of `SetTemplate` when both files are read, spelled out: the
record is the decoded name and subject with the HTML file as body, and the one
request carries it. -/
theorem SetTemplate_read (w : World) (isCreate : Bool) (data html : String)
    (hjson : w.readFile ("./templates/" ++ w.scan 0 ++ ".json") = .ok data)
    (hhtml : w.readFile ("./templates/" ++ w.scan 0 ++ ".html") = .ok html) :
    SetTemplate.load w =
        (⟨[.print "미리 생성한 템플릿 설정 파일 이름: "], .returned⟩,
          some ⟨(w.unmarshal data Template.zero).1.Name, html,
            (w.unmarshal data Template.zero).1.Subject⟩) ∧
      SetTemplate w isCreate =
        Outcome.after [.print "미리 생성한 템플릿 설정 파일 이름: "]
          (SetTemplate.send w isCreate ⟨(w.unmarshal data Template.zero).1.Name, html,
            (w.unmarshal data Template.zero).1.Subject⟩) := by
  have h : SetTemplate.load w =
      (⟨[.print "미리 생성한 템플릿 설정 파일 이름: "], .returned⟩,
        some ⟨(w.unmarshal data Template.zero).1.Name, html,
          (w.unmarshal data Template.zero).1.Subject⟩) := by
    simp only [SetTemplate.load, hjson, hhtml]
  exact ⟨h, by simp only [SetTemplate, h, Outcome.after]⟩

/-- The outcome of `SetTemplate` when one of the two files cannot be read. -/
theorem SetTemplate_unread (w : World) (isCreate : Bool)
    (h : (∃ err, w.readFile ("./templates/" ++ w.scan 0 ++ ".json") = .error err) ∨
      (∃ err, w.readFile ("./templates/" ++ w.scan 0 ++ ".html") = .error err)) :
    ∃ err, SetTemplate w isCreate =
      ⟨[.print "미리 생성한 템플릿 설정 파일 이름: ", .fatal ("[ERROR] " ++ err)], .exited 1⟩ := by
  cases hj : w.readFile ("./templates/" ++ w.scan 0 ++ ".json") with
  | error err =>
    exact ⟨err, by simp only [SetTemplate, SetTemplate.load, hj]⟩
  | ok data =>
    rcases h with ⟨err, he⟩ | ⟨err, he⟩
    · rw [hj] at he
      cases he
    · exact ⟨err, by simp only [SetTemplate, SetTemplate.load, hj, he]⟩

/-- The requests of `SetTemplate` when both files are read. -/
theorem SetTemplate_read_calls (w : World) (isCreate : Bool) (data html : String)
    (hjson : w.readFile ("./templates/" ++ w.scan 0 ++ ".json") = .ok data)
    (hhtml : w.readFile ("./templates/" ++ w.scan 0 ++ ".html") = .ok html) :
    calls (SetTemplate w isCreate).trace =
      [if isCreate then
        .CreateEmailTemplate (w.unmarshal data Template.zero).1.Name
          (w.unmarshal data Template.zero).1.Subject html
      else
        .UpdateEmailTemplate (w.unmarshal data Template.zero).1.Name
          (w.unmarshal data Template.zero).1.Subject html] := by
  rw [(SetTemplate_read w isCreate data html hjson hhtml).2]
  cases isCreate
  · cases hu : w.updateEmailTemplate (w.unmarshal data Template.zero).1.Name
        (w.unmarshal data Template.zero).1.Subject html <;>
      simp [Outcome.after, SetTemplate.send, hu, calls]
  · cases hc : w.createEmailTemplate (w.unmarshal data Template.zero).1.Name
        (w.unmarshal data Template.zero).1.Subject html <;>
      simp [Outcome.after, SetTemplate.send, hc, calls]

/-- C1: when `./templates/{id}.json` and `./templates/{id}.html` are both read,
the record `SetTemplate` builds has as `Html` exactly the contents of the HTML
file, and the request it sends carries that body; whatever the decoder put into
`Html` from the JSON file is overwritten: replacing it by any other value
changes neither the record nor the run. -/
theorem SetTemplate_html_is_file (w : World) (data html : String)
    (hjson : w.readFile ("./templates/" ++ w.scan 0 ++ ".json") = .ok data)
    (hhtml : w.readFile ("./templates/" ++ w.scan 0 ++ ".html") = .ok html) :
    (∃ t, (SetTemplate.load w).2 = some t ∧ t.Html = html) ∧
      (∀ isCreate name subject body,
        (Request.CreateEmailTemplate name subject body ∈ calls (SetTemplate w isCreate).trace ∨
          Request.UpdateEmailTemplate name subject body ∈ calls (SetTemplate w isCreate).trace) →
        body = html) ∧
      (∀ other : String,
        SetTemplate.load { w with unmarshal := fun d t =>
            ({ (w.unmarshal d t).1 with Html := other }, (w.unmarshal d t).2) } =
          SetTemplate.load w ∧
        ∀ isCreate,
          SetTemplate { w with unmarshal := fun d t =>
              ({ (w.unmarshal d t).1 with Html := other }, (w.unmarshal d t).2) } isCreate =
            SetTemplate w isCreate) := by
  obtain ⟨hl, _⟩ := SetTemplate_read w true data html hjson hhtml
  refine ⟨⟨_, by rw [hl], rfl⟩, ?_, ?_⟩
  · intro isCreate name subject body h
    rw [(SetTemplate_read w isCreate data html hjson hhtml).2] at h
    cases isCreate <;>
      cases hc : w.createEmailTemplate (w.unmarshal data Template.zero).1.Name
          (w.unmarshal data Template.zero).1.Subject html <;>
      cases hu : w.updateEmailTemplate (w.unmarshal data Template.zero).1.Name
          (w.unmarshal data Template.zero).1.Subject html <;>
      simp [Outcome.after, SetTemplate.send, hc, hu, calls] at h <;>
      simp [h]
  · intro other
    have hl2 : SetTemplate.load { w with unmarshal := fun d t =>
          ({ (w.unmarshal d t).1 with Html := other }, (w.unmarshal d t).2) } =
        SetTemplate.load w := by
      have hjson2 : w.readFile ("./templates/" ++ World.scan { w with unmarshal := fun d t =>
          ({ (w.unmarshal d t).1 with Html := other }, (w.unmarshal d t).2) } 0 ++ ".json")
            = .ok data := hjson
      have hhtml2 : w.readFile ("./templates/" ++ World.scan { w with unmarshal := fun d t =>
          ({ (w.unmarshal d t).1 with Html := other }, (w.unmarshal d t).2) } 0 ++ ".html")
            = .ok html := hhtml
      rw [hl]
      simp only [SetTemplate.load, hjson2, hhtml2]
    refine ⟨hl2, fun isCreate => ?_⟩
    simp only [SetTemplate, hl2]
    rfl

/-- C1 at the `promo` files, whose metadata gives `"html":"<b>from json</b>"`: the
body that is sent is the HTML file. -/
theorem SetTemplate_html_is_file_witness :
    (worldOf [] ["promo"] promoFiles).readFile
        ("./templates/" ++ (worldOf [] ["promo"] promoFiles).scan 0 ++ ".json") =
        .ok "\x7b\"name\":\"promo\",\"html\":\"<b>from json</b>\",\"subject\":\"Sale\"\x7d" ∧
      (jsonUnmarshal
          "\x7b\"name\":\"promo\",\"html\":\"<b>from json</b>\",\"subject\":\"Sale\"\x7d"
          Template.zero).1.Html = "<b>from json</b>" ∧
      (SetTemplate.load (worldOf [] ["promo"] promoFiles)).2 =
        some ⟨"promo", "<p>from file</p>", "Sale"⟩ ∧
      ∃ t, (SetTemplate.load (worldOf [] ["promo"] promoFiles)).2 = some t ∧
        t.Html = "<p>from file</p>" :=
  ⟨rfl, by decide, by decide,
    (SetTemplate_html_is_file (worldOf [] ["promo"] promoFiles) _ "<p>from file</p>"
      rfl rfl).1⟩

/-- C2, at `broken.json` holding the single byte `{` beside a readable
`broken.html`: the decoder reports a syntax error and leaves the record at its
zero value, and `SetTemplate` goes on all the same: it sends a create request
with empty name and empty subject and prints the confirmation (and likewise an
update request when `isCreate` is false). -/
theorem SetTemplate_malformed_json_is_sent :
    (worldOf [] ["broken"] brokenFiles).readFile "./templates/broken.json" = .ok "\x7b" ∧
      (worldOf [] ["broken"] brokenFiles).unmarshal "\x7b" Template.zero =
        (Template.zero, some "SyntaxError") ∧
      SetTemplate (worldOf [] ["broken"] brokenFiles) true =
        ⟨[.print "미리 생성한 템플릿 설정 파일 이름: ",
          .call (.CreateEmailTemplate "" "" "<p>Hello</p>"),
          .println "템플릿 생성 완료"], .returned⟩ ∧
      SetTemplate (worldOf [] ["broken"] brokenFiles) false =
        ⟨[.print "미리 생성한 템플릿 설정 파일 이름: ",
          .call (.UpdateEmailTemplate "" "" "<p>Hello</p>"),
          .println "템플릿 업데이트 완료"], .returned⟩ :=
  ⟨rfl, by decide, by decide, by decide⟩

/-- C3: when `./templates/{id}.json` or `./templates/{id}.html` cannot be read,
`SetTemplate`, as create and as update, ends fatally with status 1 right after
the prompt and sends no request at all. -/
theorem SetTemplate_missing_file (w : World) (isCreate : Bool)
    (h : (∃ err, w.readFile ("./templates/" ++ w.scan 0 ++ ".json") = .error err) ∨
      (∃ err, w.readFile ("./templates/" ++ w.scan 0 ++ ".html") = .error err)) :
    (SetTemplate w isCreate).status = .exited 1 ∧
      calls (SetTemplate w isCreate).trace = [] ∧
      ∃ err, (SetTemplate w isCreate).trace =
        [.print "미리 생성한 템플릿 설정 파일 이름: ", .fatal ("[ERROR] " ++ err)] := by
  obtain ⟨err, hs⟩ := SetTemplate_unread w isCreate h
  rw [hs]
  exact ⟨rfl, rfl, err, rfl⟩

/-- C3 where the template directory holds `welcome` only and `missing` is asked
for. -/
theorem SetTemplate_missing_file_witness :
    ((∃ err, (worldOf [] ["missing"] welcomeFiles).readFile
          ("./templates/" ++ (worldOf [] ["missing"] welcomeFiles).scan 0 ++ ".json") =
          .error err) ∨
        (∃ err, (worldOf [] ["missing"] welcomeFiles).readFile
          ("./templates/" ++ (worldOf [] ["missing"] welcomeFiles).scan 0 ++ ".html") =
          .error err)) ∧
      (SetTemplate (worldOf [] ["missing"] welcomeFiles) true).status = .exited 1 ∧
      calls (SetTemplate (worldOf [] ["missing"] welcomeFiles) true).trace = [] :=
  ⟨Or.inl ⟨_, rfl⟩,
    (SetTemplate_missing_file (worldOf [] ["missing"] welcomeFiles) true
      (Or.inl ⟨_, rfl⟩)).1,
    (SetTemplate_missing_file (worldOf [] ["missing"] welcomeFiles) true
      (Or.inl ⟨_, rfl⟩)).2.1⟩

/-- C8: when both files are read, `SetTemplate` sends exactly one request, a
create request if `isCreate` and an update request otherwise, whose name and
subject are the ones decoded from the JSON file (empty or not) and whose body is
the HTML file; if the service accepts it the confirmation is printed and the
function returns, if the service rejects it the run ends fatally and nothing is
printed. -/
theorem SetTemplate_one_request (w : World) (isCreate : Bool) (data html : String)
    (hjson : w.readFile ("./templates/" ++ w.scan 0 ++ ".json") = .ok data)
    (hhtml : w.readFile ("./templates/" ++ w.scan 0 ++ ".html") = .ok html) :
    calls (SetTemplate w isCreate).trace =
        [if isCreate then
          .CreateEmailTemplate (w.unmarshal data Template.zero).1.Name
            (w.unmarshal data Template.zero).1.Subject html
        else
          .UpdateEmailTemplate (w.unmarshal data Template.zero).1.Name
            (w.unmarshal data Template.zero).1.Subject html] ∧
      ((if isCreate then
          w.createEmailTemplate (w.unmarshal data Template.zero).1.Name
            (w.unmarshal data Template.zero).1.Subject html
        else
          w.updateEmailTemplate (w.unmarshal data Template.zero).1.Name
            (w.unmarshal data Template.zero).1.Subject html) = none →
        (SetTemplate w isCreate).status = .returned ∧
        (SetTemplate w isCreate).trace.getLast? =
          some (.println (if isCreate then "템플릿 생성 완료" else "템플릿 업데이트 완료"))) ∧
      (∀ err,
        (if isCreate then
          w.createEmailTemplate (w.unmarshal data Template.zero).1.Name
            (w.unmarshal data Template.zero).1.Subject html
        else
          w.updateEmailTemplate (w.unmarshal data Template.zero).1.Name
            (w.unmarshal data Template.zero).1.Subject html) = some err →
        (SetTemplate w isCreate).status = .exited 1 ∧
        (SetTemplate w isCreate).trace.getLast? = some (.fatal ("[ERROR] " ++ err)) ∧
        ∀ line, Event.println line ∉ (SetTemplate w isCreate).trace) := by
  rw [(SetTemplate_read w isCreate data html hjson hhtml).2]
  cases isCreate
  · cases hu : w.updateEmailTemplate (w.unmarshal data Template.zero).1.Name
        (w.unmarshal data Template.zero).1.Subject html <;>
      simp [Outcome.after, SetTemplate.send, hu, calls]
  · cases hc : w.createEmailTemplate (w.unmarshal data Template.zero).1.Name
        (w.unmarshal data Template.zero).1.Subject html <;>
      simp [Outcome.after, SetTemplate.send, hc, calls]

/-- C8 at the scenario of the specification: `welcome.json` is
`{"name":"welcome","subject":"Hi"}`, `welcome.html` is `<p>Hello</p>`, and create
sends name `welcome`, subject `Hi`, body `<p>Hello</p>`. -/
theorem SetTemplate_one_request_witness :
    (worldOf [] ["welcome"] welcomeFiles).readFile
        ("./templates/" ++ (worldOf [] ["welcome"] welcomeFiles).scan 0 ++ ".json") =
        .ok "\x7b\"name\":\"welcome\",\"subject\":\"Hi\"\x7d" ∧
      (worldOf [] ["welcome"] welcomeFiles).readFile
        ("./templates/" ++ (worldOf [] ["welcome"] welcomeFiles).scan 0 ++ ".html") =
        .ok "<p>Hello</p>" ∧
      calls (SetTemplate (worldOf [] ["welcome"] welcomeFiles) true).trace =
        [.CreateEmailTemplate "welcome" "Hi" "<p>Hello</p>"] ∧
      (SetTemplate (worldOf [] ["welcome"] welcomeFiles) true).trace.getLast? =
        some (.println "템플릿 생성 완료") :=
  ⟨rfl, rfl,
    (SetTemplate_one_request (worldOf [] ["welcome"] welcomeFiles) true _ "<p>Hello</p>"
      rfl rfl).1.trans (by decide),
    ((SetTemplate_one_request (worldOf [] ["welcome"] welcomeFiles) true _ "<p>Hello</p>"
      rfl rfl).2.1 rfl).2⟩

/-! ## `GetTemplates`: the page loop -/

theorem appendNames_named (metas : List EmailTemplateMetadata) :
    ∀ list : List String, (∀ elem ∈ metas, elem.TemplateName ≠ none) →
      appendNames list metas = some (list ++ metas.filterMap (·.TemplateName)) := by
  induction metas with
  | nil => intro list _; simp [appendNames]
  | cons elem rest ih =>
    intro list h
    cases hn : elem.TemplateName with
    | none => exact absurd hn (h elem (List.mem_cons_self _ _))
    | some name =>
      have hrest := ih (list ++ [name]) (fun e he => h e (List.mem_cons_of_mem _ he))
      simp [appendNames, hn, hrest]

theorem appendNames_nil (metas : List EmailTemplateMetadata) :
    ∀ list : List String, (∃ elem ∈ metas, elem.TemplateName = none) →
      appendNames list metas = none := by
  induction metas with
  | nil => intro list h; simp at h
  | cons elem rest ih =>
    intro list h
    cases hn : elem.TemplateName with
    | none => simp [appendNames, hn]
    | some name =>
      have hrest : ∃ e ∈ rest, e.TemplateName = none := by
        obtain ⟨e, he, hnone⟩ := h
        rcases List.mem_cons.mp he with rfl | he
        · rw [hn] at hnone; cases hnone
        · exact ⟨e, he, hnone⟩
      simp [appendNames, hn, ih _ hrest]

/-- One iteration of the loop on a page whose templates all have names. -/
theorem drainPages_page (w : World) (fuel : Nat) (p : ListEmailTemplatesPaginator)
    (list : List String) (page : ListEmailTemplatesOutput)
    (hmore : p.HasMorePages = true)
    (hpage : w.listEmailTemplates p.requests p.nextToken = .ok page)
    (hnamed : ∀ elem ∈ page.TemplatesMetadata, elem.TemplateName ≠ none) :
    drainPages w (fuel + 1) p list =
      (.call (.ListEmailTemplates 10 p.nextToken) ::
          (drainPages w fuel ⟨page.NextToken, false, p.requests + 1⟩
            (list ++ pageNames page)).1,
        (drainPages w fuel ⟨page.NextToken, false, p.requests + 1⟩
          (list ++ pageNames page)).2) := by
  simp [drainPages, hmore, ListEmailTemplatesPaginator.NextPage, hpage,
    appendNames_named _ list hnamed, pageNames]

/-- The iteration in which the request fails. -/
theorem drainPages_error (w : World) (fuel : Nat) (p : ListEmailTemplatesPaginator)
    (list : List String) (err : String)
    (hmore : p.HasMorePages = true)
    (hpage : w.listEmailTemplates p.requests p.nextToken = .error err) :
    drainPages w (fuel + 1) p list =
      ([.call (.ListEmailTemplates 10 p.nextToken)], some (.pageError err)) := by
  simp [drainPages, hmore, ListEmailTemplatesPaginator.NextPage, hpage]

/-- The iteration in which a nil name is dereferenced. -/
theorem drainPages_panic (w : World) (fuel : Nat) (p : ListEmailTemplatesPaginator)
    (list : List String) (page : ListEmailTemplatesOutput)
    (hmore : p.HasMorePages = true)
    (hpage : w.listEmailTemplates p.requests p.nextToken = .ok page)
    (hnil : ∃ elem ∈ page.TemplatesMetadata, elem.TemplateName = none) :
    drainPages w (fuel + 1) p list =
      ([.call (.ListEmailTemplates 10 p.nextToken)], some .panic) := by
  simp [drainPages, hmore, ListEmailTemplatesPaginator.NextPage, hpage,
    appendNames_nil _ list hnil]

/-- The loop ends when the paginator has no more pages. -/
theorem drainPages_done (w : World) (fuel : Nat) (p : ListEmailTemplatesPaginator)
    (list : List String) (hmore : p.HasMorePages = false) :
    drainPages w (fuel + 1) p list = ([], some (.done list)) := by
  simp [drainPages, hmore]

theorem paginatorAfter_requests (pages : List ListEmailTemplatesOutput) :
    ∀ p : ListEmailTemplatesPaginator,
      (paginatorAfter p pages).requests = p.requests + pages.length ∧
      (paginatorAfter p pages).nextToken = tokenAfter p.nextToken pages := by
  induction pages with
  | nil => intro p; simp [paginatorAfter, tokenAfter]
  | cons page rest ih =>
    intro p
    have h := ih ⟨page.NextToken, false, p.requests + 1⟩
    simp only [paginatorAfter, tokenAfter, List.length_cons]
    exact ⟨by rw [h.1]; simp only []; omega, h.2⟩

theorem paginatorAfter_more (w : World) (pages : List ListEmailTemplatesOutput) :
    ∀ p : ListEmailTemplatesPaginator, p.HasMorePages = true →
      ServesOn w p.requests p.nextToken pages →
      (paginatorAfter p pages).HasMorePages = true := by
  induction pages with
  | nil => intro p h _; exact h
  | cons page rest ih =>
    intro p _ hs
    obtain ⟨_, htok, hrest⟩ := hs
    exact ih ⟨page.NextToken, false, p.requests + 1⟩
      (by simp [ListEmailTemplatesPaginator.HasMorePages, htok]) hrest

theorem allNames_cons (page : ListEmailTemplatesOutput) (rest : List ListEmailTemplatesOutput) :
    allNames (page :: rest) = pageNames page ++ allNames rest := by
  simp [allNames]

theorem allNames_append (a b : List ListEmailTemplatesOutput) :
    allNames (a ++ b) = allNames a ++ allNames b := by
  simp [allNames]

theorem requestsFor_append (a b : List ListEmailTemplatesOutput) :
    ∀ tok, requestsFor tok (a ++ b) = requestsFor tok a ++ requestsFor (tokenAfter tok a) b := by
  induction a with
  | nil => intro tok; simp [requestsFor, tokenAfter]
  | cons page rest ih => intro tok; simp [requestsFor, tokenAfter, ih]

/-- The loop over pages that all ask for more: one request per page, the names
appended page after page, then the loop goes on from the paginator after them. -/
theorem drainPages_servesOn (w : World) (fuel : Nat) (pages : List ListEmailTemplatesOutput) :
    ∀ (p : ListEmailTemplatesPaginator) (list : List String),
      p.HasMorePages = true → ServesOn w p.requests p.nextToken pages → Named pages →
      drainPages w (pages.length + fuel) p list =
        (requestsFor p.nextToken pages ++
            (drainPages w fuel (paginatorAfter p pages) (list ++ allNames pages)).1,
          (drainPages w fuel (paginatorAfter p pages) (list ++ allNames pages)).2) := by
  induction pages with
  | nil => intro p list _ _ _; simp [requestsFor, paginatorAfter, allNames]
  | cons page rest ih =>
    intro p list hmore hs hnamed
    obtain ⟨hpage, htok, hrest⟩ := hs
    have hfuel : (page :: rest).length + fuel = (rest.length + fuel) + 1 := by
      simp only [List.length_cons]; omega
    rw [hfuel, drainPages_page w _ p list page hmore hpage
      (hnamed page (List.mem_cons_self _ _))]
    have h := ih ⟨page.NextToken, false, p.requests + 1⟩ (list ++ pageNames page)
      (by simp [ListEmailTemplatesPaginator.HasMorePages, htok]) hrest
      (fun pg hpg => hnamed pg (List.mem_cons_of_mem _ hpg))
    rw [h]
    simp [requestsFor, paginatorAfter, allNames_cons, List.append_assoc]

theorem printedLines_append (a b : List Event) :
    printedLines (a ++ b) = printedLines a ++ printedLines b := by
  induction a with
  | nil => rfl
  | cons e rest ih => cases e <;> simp [printedLines, ih]

theorem printedLines_requestsFor (pages : List ListEmailTemplatesOutput) :
    ∀ tok, printedLines (requestsFor tok pages) = [] := by
  induction pages with
  | nil => intro tok; rfl
  | cons page rest ih => intro tok; simp [requestsFor, printedLines, ih]

theorem printedLines_println (names : List String) :
    printedLines (names.map Event.println) = names := by
  induction names with
  | nil => rfl
  | cons n rest ih => simp [printedLines, ih]

theorem mem_printedLines (tr : List Event) (line : String) :
    line ∈ printedLines tr ↔ Event.println line ∈ tr := by
  induction tr with
  | nil => simp [printedLines]
  | cons e rest ih => cases e <;> simp [printedLines, ih]

theorem pageNames_length (page : ListEmailTemplatesOutput)
    (h : ∀ elem ∈ page.TemplatesMetadata, elem.TemplateName ≠ none) :
    (pageNames page).length = page.TemplatesMetadata.length := by
  unfold pageNames
  generalize page.TemplatesMetadata = metas at h
  induction metas with
  | nil => rfl
  | cons elem rest ih =>
    cases hn : elem.TemplateName with
    | none => exact absurd hn (h elem (List.mem_cons_self _ _))
    | some name =>
      simp [List.filterMap_cons, hn, ih (fun e he => h e (List.mem_cons_of_mem _ he))]

theorem allNames_length (pages : List ListEmailTemplatesOutput) (h : Named pages) :
    (allNames pages).length = (pages.map (·.TemplatesMetadata.length)).sum := by
  induction pages with
  | nil => rfl
  | cons page rest ih =>
    rw [allNames_cons, List.length_append, pageNames_length page (h page (List.mem_cons_self _ _)),
      ih (fun pg hpg => h pg (List.mem_cons_of_mem _ hpg))]
    simp

/-- The loop on a listing that the service answers in full: one request per
page, and the list is the names of all pages in order. -/
theorem drainPages_serves (w : World) (init : List ListEmailTemplatesOutput)
    (last : ListEmailTemplatesOutput) (fuel : Nat)
    (hs : Serves w init last) (hn : Named (init ++ [last])) (hf : init.length + 1 < fuel) :
    drainPages w fuel NewListEmailTemplatesPaginator [] =
      (requestsFor none (init ++ [last]), some (.done (allNames (init ++ [last])))) := by
  obtain ⟨k, rfl⟩ : ∃ k, fuel = init.length + (k + 1 + 1) := ⟨fuel - init.length - 2, by omega⟩
  obtain ⟨hinit, hlast, htok⟩ := hs
  have hninit : Named init := fun pg hpg => hn pg (List.mem_append_left _ hpg)
  have hnlast : ∀ elem ∈ last.TemplatesMetadata, elem.TemplateName ≠ none :=
    hn last (List.mem_append_right _ (List.mem_singleton_self _))
  have hnew : NewListEmailTemplatesPaginator.HasMorePages = true := rfl
  have hq := paginatorAfter_requests init NewListEmailTemplatesPaginator
  have hmore := paginatorAfter_more w init NewListEmailTemplatesPaginator hnew hinit
  have hpage : w.listEmailTemplates (paginatorAfter NewListEmailTemplatesPaginator init).requests
      (paginatorAfter NewListEmailTemplatesPaginator init).nextToken = .ok last := by
    rw [hq.1, hq.2]
    simpa [NewListEmailTemplatesPaginator] using hlast
  rw [drainPages_servesOn w _ init NewListEmailTemplatesPaginator [] hnew hinit hninit,
    drainPages_page w _ _ _ last hmore hpage hnlast,
    drainPages_done w k _ _ (by simp [ListEmailTemplatesPaginator.HasMorePages, htok])]
  rw [hq.2, requestsFor_append, allNames_append]
  simp [requestsFor, allNames, NewListEmailTemplatesPaginator]

/-- The outcome of `GetTemplates` on a listing that the service answers in full. -/
theorem GetTemplates_serves (w : World) (init : List ListEmailTemplatesOutput)
    (last : ListEmailTemplatesOutput) (fuel : Nat)
    (hs : Serves w init last) (hn : Named (init ++ [last])) (hf : init.length + 1 < fuel) :
    GetTemplates w fuel =
      some ⟨requestsFor none (init ++ [last]) ++
        (if allNames (init ++ [last]) = [] then [Event.println noneFound]
          else .println resultHeader :: (allNames (init ++ [last])).map Event.println),
        .returned⟩ := by
  simp only [GetTemplates, drainPages_serves w init last fuel hs hn hf]
  by_cases he : allNames (init ++ [last]) = []
  · simp [he, noneFound]
  · have hlen : ¬ (allNames (init ++ [last])).length = 0 := by
      simpa [List.length_eq_zero] using he
    simp [he, hlen, resultHeader]

/-- The outcome of `GetTemplates` when, after the pages of `init`, the next
request fails or the next page holds a template without name: in both cases
the deferred function or the error check ends the run with `log.Fatalf`. -/
theorem GetTemplates_fails (w : World) (init : List ListEmailTemplatesOutput) (fuel : Nat)
    (hs : ServesOn w 0 none init) (hn : Named init) (hf : init.length < fuel) :
    (∀ err, w.listEmailTemplates init.length (tokenAfter none init) = .error err →
      GetTemplates w fuel =
        some ⟨requestsFor none init ++ [.call (.ListEmailTemplates 10 (tokenAfter none init)),
          .fatal ("[ERROR] Pagination error, " ++ err ++ "\n")], .exited 1⟩) ∧
    (∀ page, w.listEmailTemplates init.length (tokenAfter none init) = .ok page →
      (∃ elem ∈ page.TemplatesMetadata, elem.TemplateName = none) →
      GetTemplates w fuel =
        some ⟨requestsFor none init ++ [.call (.ListEmailTemplates 10 (tokenAfter none init)),
          .fatal ("[ERROR] " ++ nilDeref ++ "\n")], .exited 1⟩) := by
  obtain ⟨k, rfl⟩ : ∃ k, fuel = init.length + (k + 1) := ⟨fuel - init.length - 1, by omega⟩
  have hnew : NewListEmailTemplatesPaginator.HasMorePages = true := rfl
  have hq := paginatorAfter_requests init NewListEmailTemplatesPaginator
  have hmore := paginatorAfter_more w init NewListEmailTemplatesPaginator hnew hs
  have hreq : (paginatorAfter NewListEmailTemplatesPaginator init).requests = init.length := by
    rw [hq.1]; simp [NewListEmailTemplatesPaginator]
  have htok : (paginatorAfter NewListEmailTemplatesPaginator init).nextToken =
      tokenAfter none init := hq.2
  constructor
  · intro err herr
    have hpage : w.listEmailTemplates
        (paginatorAfter NewListEmailTemplatesPaginator init).requests
        (paginatorAfter NewListEmailTemplatesPaginator init).nextToken = .error err := by
      rw [hreq, htok]; exact herr
    simp only [GetTemplates,
      drainPages_servesOn w _ init NewListEmailTemplatesPaginator [] hnew hs hn,
      drainPages_error w k _ _ err hmore hpage]
    simp only [htok]
    simp [NewListEmailTemplatesPaginator]
  · intro page hok hnil
    have hpage : w.listEmailTemplates
        (paginatorAfter NewListEmailTemplatesPaginator init).requests
        (paginatorAfter NewListEmailTemplatesPaginator init).nextToken = .ok page := by
      rw [hreq, htok]; exact hok
    simp only [GetTemplates,
      drainPages_servesOn w _ init NewListEmailTemplatesPaginator [] hnew hs hn,
      drainPages_panic w k _ _ page hmore hpage hnil]
    simp only [htok]
    simp [NewListEmailTemplatesPaginator]

theorem count_println (tr : List Event) (line : String) :
    tr.count (.println line) = (printedLines tr).count line := by
  induction tr with
  | nil => rfl
  | cons e rest ih =>
    cases e <;> simp [printedLines, List.count_cons, ih]

theorem allNames_eq_nil (pages : List ListEmailTemplatesOutput) (h : Named pages) :
    allNames pages = [] ↔ ∀ page ∈ pages, page.TemplatesMetadata = [] := by
  induction pages with
  | nil => simp [allNames]
  | cons page rest ih =>
    have hlen := pageNames_length page (h page (List.mem_cons_self _ _))
    have hrest := ih (fun pg hpg => h pg (List.mem_cons_of_mem _ hpg))
    rw [allNames_cons, List.append_eq_nil, hrest, ← List.length_eq_zero, hlen,
      List.length_eq_zero]
    simp

theorem pageNames_exact (page : ListEmailTemplatesOutput)
    (h : ∀ elem ∈ page.TemplatesMetadata, elem.TemplateName ≠ none) :
    (pageNames page).map some = page.TemplatesMetadata.map (·.TemplateName) := by
  unfold pageNames
  generalize page.TemplatesMetadata = metas at h
  induction metas with
  | nil => rfl
  | cons elem rest ih =>
    cases hn : elem.TemplateName with
    | none => exact absurd hn (h elem (List.mem_cons_self _ _))
    | some name =>
      simp [List.filterMap_cons, hn, ih (fun e he => h e (List.mem_cons_of_mem _ he))]

/-- C4: when the service answers the paginator with the pages `init ++ [last]`
(every template named), the list the loop of `GetTemplates` accumulates is the
names of the pages one page after the other, each page in its own order; its
length is the sum of the pages' item counts; and `GetTemplates` returns after
printing these names, one per line in that order, below the header. -/
theorem GetTemplates_concatenates (w : World) (init : List ListEmailTemplatesOutput)
    (last : ListEmailTemplatesOutput) (fuel : Nat)
    (hs : Serves w init last) (hn : Named (init ++ [last])) (hf : init.length + 1 < fuel) :
    (drainPages w fuel NewListEmailTemplatesPaginator []).2 =
        some (.done (((init ++ [last]).map pageNames).flatten)) ∧
      (∀ page ∈ init ++ [last],
        (pageNames page).map some = page.TemplatesMetadata.map (·.TemplateName)) ∧
      (((init ++ [last]).map pageNames).flatten).length =
        ((init ++ [last]).map (·.TemplatesMetadata.length)).sum ∧
      ∃ o, GetTemplates w fuel = some o ∧ o.status = .returned ∧
        (((init ++ [last]).map pageNames).flatten ≠ [] →
          printedLines o.trace =
            "=-=-=- 조회 결과 -=-=-=" :: ((init ++ [last]).map pageNames).flatten) := by
  refine ⟨by rw [drainPages_serves w init last fuel hs hn hf]; rfl,
    fun page hpage => pageNames_exact page (hn page hpage),
    allNames_length _ hn, _, GetTemplates_serves w init last fuel hs hn hf, rfl, ?_⟩
  intro hne
  have hne2 : ¬ allNames (init ++ [last]) = [] := hne
  simp only [hne2, if_false, printedLines_append, printedLines_requestsFor, List.nil_append,
    printedLines, printedLines_println]
  rfl

/-- C4 on three templates spread over two pages. -/
theorem GetTemplates_concatenates_witness :
    Serves { worldOf [] [] [] with listEmailTemplates := twoPages }
        [⟨[⟨some "welcome"⟩, ⟨some "promo"⟩], some "t1"⟩] ⟨[⟨some "receipt"⟩], none⟩ ∧
      (drainPages { worldOf [] [] [] with listEmailTemplates := twoPages } 3
          NewListEmailTemplatesPaginator []).2 =
        some (.done ["welcome", "promo", "receipt"]) :=
  ⟨⟨⟨rfl, rfl, trivial⟩, rfl, rfl⟩,
    (GetTemplates_concatenates { worldOf [] [] [] with listEmailTemplates := twoPages }
      [⟨[⟨some "welcome"⟩, ⟨some "promo"⟩], some "t1"⟩] ⟨[⟨some "receipt"⟩], none⟩ 3
      ⟨⟨rfl, rfl, trivial⟩, rfl, rfl⟩ (by simp [Named]) (by decide)).1⟩

/-- C7: when the service answers the paginator with the pages `init ++ [last]`
(every template named), `GetTemplates` returns, and if the pages hold no
template at all the only line it prints is the message for an empty listing,
once, with no header and no line per item; if some page holds a template, the
lines it prints are the header and then the names, so the message for an empty
listing is not among them (unless a template bears that very name). -/
theorem GetTemplates_none_found (w : World) (init : List ListEmailTemplatesOutput)
    (last : ListEmailTemplatesOutput) (fuel : Nat)
    (hs : Serves w init last) (hn : Named (init ++ [last])) (hf : init.length + 1 < fuel) :
    ∃ o, GetTemplates w fuel = some o ∧ o.status = .returned ∧
      ((∀ page ∈ init ++ [last], page.TemplatesMetadata = []) →
        printedLines o.trace = ["생성된 템플릿이 없습니다."] ∧
        o.trace.count (.println "생성된 템플릿이 없습니다.") = 1 ∧
        Event.println "=-=-=- 조회 결과 -=-=-=" ∉ o.trace) ∧
      ((∃ page ∈ init ++ [last], page.TemplatesMetadata ≠ []) →
        printedLines o.trace = "=-=-=- 조회 결과 -=-=-=" :: allNames (init ++ [last]) ∧
        (printedLines o.trace).head? ≠ some "생성된 템플릿이 없습니다." ∧
        ("생성된 템플릿이 없습니다." ∉ allNames (init ++ [last]) →
          Event.println "생성된 템플릿이 없습니다." ∉ o.trace)) := by
  refine ⟨_, GetTemplates_serves w init last fuel hs hn hf, rfl, ?_, ?_⟩
  · intro hempty
    have he : allNames (init ++ [last]) = [] := (allNames_eq_nil _ hn).mpr hempty
    have hl : printedLines (requestsFor none (init ++ [last]) ++ [Event.println noneFound]) =
        ["생성된 템플릿이 없습니다."] := by
      simp [printedLines_append, printedLines_requestsFor, printedLines, noneFound]
    simp only [he, if_true]
    refine ⟨hl, ?_, ?_⟩
    · rw [count_println, hl]
      simp
    · intro hmem
      have := (mem_printedLines _ _).mpr hmem
      rw [hl] at this
      simp at this
  · intro hsome
    have hne : ¬ allNames (init ++ [last]) = [] := by
      intro he
      obtain ⟨page, hpage, hnonempty⟩ := hsome
      exact hnonempty ((allNames_eq_nil _ hn).mp he page hpage)
    have hl : printedLines (requestsFor none (init ++ [last]) ++
        Event.println resultHeader :: (allNames (init ++ [last])).map Event.println) =
        "=-=-=- 조회 결과 -=-=-=" :: allNames (init ++ [last]) := by
      simp [printedLines_append, printedLines_requestsFor, printedLines, printedLines_println,
        resultHeader]
    simp only [hne, if_false]
    refine ⟨hl, ?_, ?_⟩
    · rw [hl, List.head?_cons]
      decide
    · intro hnot hmem
      have := (mem_printedLines _ _).mpr hmem
      rw [hl] at this
      rcases List.mem_cons.mp this with h | h
      · exact absurd h (by decide)
      · exact hnot h

/-- C7 on a service without templates (one empty page): the message is the one
line that is printed. -/
theorem GetTemplates_none_found_witness :
    Serves (worldOf [] [] []) [] ⟨[], none⟩ ∧
      ∃ o, GetTemplates (worldOf [] [] []) 2 = some o ∧ o.status = .returned ∧
        printedLines o.trace = ["생성된 템플릿이 없습니다."] :=
  ⟨⟨trivial, rfl, rfl⟩,
    (GetTemplates_none_found (worldOf [] [] []) [] ⟨[], none⟩ 2 ⟨trivial, rfl, rfl⟩
      (by simp [Named]) (by decide)).elim
      (fun o h => ⟨o, h.1, h.2.1, (h.2.2.1 (by simp)).1⟩)⟩

/-- C9: when, after any number of pages, the next page request returns an error
or the next page holds a template whose name pointer is nil, `GetTemplates` ends
through `log.Fatalf`: the process exits with status 1 (the panic does not leave
the function), the last thing it does is write the fatal message, and no line,
hence no template name, is printed. -/
theorem GetTemplates_failure_is_fatal (w : World) (init : List ListEmailTemplatesOutput)
    (fuel : Nat)
    (hs : ServesOn w 0 none init) (hn : Named init) (hf : init.length < fuel)
    (hfail : (∃ err, w.listEmailTemplates init.length (tokenAfter none init) = .error err) ∨
      (∃ page, w.listEmailTemplates init.length (tokenAfter none init) = .ok page ∧
        ∃ elem ∈ page.TemplatesMetadata, elem.TemplateName = none)) :
    ∃ o msg, GetTemplates w fuel = some o ∧ o.status = .exited 1 ∧
      o.trace.getLast? = some (.fatal msg) ∧ printedLines o.trace = [] ∧
      (∀ err, w.listEmailTemplates init.length (tokenAfter none init) = .error err →
        msg = "[ERROR] Pagination error, " ++ err ++ "\n") ∧
      (∀ page, w.listEmailTemplates init.length (tokenAfter none init) = .ok page →
        msg = "[ERROR] " ++ nilDeref ++ "\n") := by
  have h := GetTemplates_fails w init fuel hs hn hf
  rcases hfail with ⟨err, herr⟩ | ⟨page, hpage, hnil⟩
  · refine ⟨_, "[ERROR] Pagination error, " ++ err ++ "\n", h.1 err herr, rfl, by simp,
      ?_, ?_, ?_⟩
    · simp [printedLines_append, printedLines_requestsFor, printedLines]
    · intro err2 herr2
      rw [herr] at herr2
      cases herr2
      rfl
    · intro page hpage
      rw [herr] at hpage
      cases hpage
  · refine ⟨_, "[ERROR] " ++ nilDeref ++ "\n", h.2 page hpage hnil, rfl, by simp, ?_, ?_, ?_⟩
    · simp [printedLines_append, printedLines_requestsFor, printedLines]
    · intro err herr
      rw [hpage] at herr
      cases herr
    · intro _ _
      rfl

/-- C9 twice: a second page request that is throttled, and a first page with a
nameless template. -/
theorem GetTemplates_failure_is_fatal_witness :
    (ServesOn { worldOf [] [] [] with listEmailTemplates := throttledListing } 0 none
        [⟨[⟨some "welcome"⟩], some "t1"⟩] ∧
      ∃ o msg, GetTemplates { worldOf [] [] [] with listEmailTemplates := throttledListing } 2
          = some o ∧ o.status = .exited 1 ∧ o.trace.getLast? = some (.fatal msg) ∧
        printedLines o.trace = []) ∧
      ∃ o msg, GetTemplates { worldOf [] [] [] with listEmailTemplates := namelessListing } 1
          = some o ∧ o.status = .exited 1 ∧ o.trace.getLast? = some (.fatal msg) ∧
        printedLines o.trace = [] :=
  ⟨⟨⟨rfl, rfl, trivial⟩,
      (GetTemplates_failure_is_fatal
        { worldOf [] [] [] with listEmailTemplates := throttledListing }
        [⟨[⟨some "welcome"⟩], some "t1"⟩] 2 ⟨rfl, rfl, trivial⟩ (by simp [Named]) (by decide)
        (Or.inl ⟨"ThrottlingException", rfl⟩)).elim
        (fun o h => h.elim (fun msg hm => ⟨o, msg, hm.1, hm.2.1, hm.2.2.1, hm.2.2.2.1⟩))⟩,
    (GetTemplates_failure_is_fatal
      { worldOf [] [] [] with listEmailTemplates := namelessListing }
      [] 1 trivial (by simp [Named]) (by decide)
      (Or.inr ⟨⟨[⟨some "welcome"⟩, ⟨none⟩], none⟩, rfl, ⟨none⟩, by simp, rfl⟩)).elim
      (fun o h => h.elim (fun msg hm => ⟨o, msg, hm.1, hm.2.1, hm.2.2.1, hm.2.2.2.1⟩))⟩

/-! ## `main`: configuration, command line, dispatch -/

theorem Configuration_cases (w : World) :
    Configuration w = ⟨[], .returned⟩ ∨ ∃ msg, Configuration w = ⟨[.fatal msg], .exited 1⟩ := by
  unfold Configuration
  cases w.envLoad with
  | some err => exact Or.inr ⟨_, rfl⟩
  | none =>
    cases w.loadDefaultConfig with
    | some err => exact Or.inr ⟨_, rfl⟩
    | none => exact Or.inl rfl

theorem Outcome.after_nil (o : Outcome) : Outcome.after [] o = o := rfl

set_option maxHeartbeats 4000000 in
/-- When `flag.Parse` ends the process it has shown usage, after the error line
unless help was asked for: the status is 0 for `-h` and `-help`, 2 otherwise. -/
theorem flagParseFrom_exit (n : Nat) :
    ∀ (args : List String) (nflag : Nat) (type : String) (events : List Event) (code : Nat),
      args.length ≤ n → flagParseFrom args nflag type = .exit events code →
      (events = [.usage] ∧ code = 0) ∨ ∃ msg, events = [.flagError msg, .usage] ∧ code = 2 := by
  induction n with
  | zero =>
    intro args nflag type events code hlen h
    have : args = [] := List.length_eq_zero.mp (Nat.le_zero.mp hlen)
    subst this
    unfold flagParseFrom at h
    cases h
  | succ n ih =>
    intro args nflag type events code hlen h
    cases args with
    | nil =>
      unfold flagParseFrom at h
      cases h
    | cons s rest =>
      simp only [List.length_cons] at hlen
      unfold flagParseFrom at h
      repeat' (first | split at h | dsimp only at h)
      all_goals first
        | (cases h; done)
        | (simp only [Parsed.exit.injEq] at h
           obtain ⟨h1, h2⟩ := h
           subst h1 h2
           first
             | exact Or.inl ⟨rfl, rfl⟩
             | exact Or.inr ⟨_, rfl, rfl⟩)
        | exact ih _ _ _ _ _ (by simp only [List.length_cons] at hlen ⊢; omega) h

theorem flagParse_exit (args : List String) (events : List Event) (code : Nat)
    (h : flagParse args = .exit events code) :
    (events = [.usage] ∧ code = 0) ∨ ∃ msg, events = [.flagError msg, .usage] ∧ code = 2 :=
  flagParseFrom_exit args.length args 0 "get" events code (Nat.le_refl _) h

/-- `main` once `Configuration` returned the client. -/
theorem main_configured (w : World) (fuel : Nat) (hc : (Configuration w).status = .returned) :
    main w fuel =
      match flagParse w.args with
      | .exit events code => some ⟨events, .exited code⟩
      | .ok nflag type =>
        if nflag == 0 then some ⟨[.usage], .returned⟩ else dispatch w fuel type := by
  rcases Configuration_cases w with h | ⟨msg, h⟩
  · simp only [main, h]
    cases flagParse w.args with
    | exit events code => simp
    | ok nflag type =>
      by_cases hn : (nflag == 0) = true
      · simp [hn]
      · simp only [hn]
        cases dispatch w fuel type <;> simp [Outcome.after]
  · rw [h] at hc
    cases hc

/-- `main` when `Configuration` ends the process. -/
theorem main_not_configured (w : World) (fuel : Nat)
    (hc : (Configuration w).status ≠ .returned) :
    ∃ msg, Configuration w = ⟨[.fatal msg], .exited 1⟩ ∧
      main w fuel = some ⟨[.fatal msg], .exited 1⟩ := by
  rcases Configuration_cases w with h | ⟨msg, h⟩
  · rw [h] at hc
    exact absurd rfl hc
  · exact ⟨msg, h, by simp only [main, h]⟩

/-- C5, refuted as stated: with no command-line argument at all but an env file
that does not load, `main` writes the fatal message and exits with status 1;
usage is not shown. -/
theorem main_zero_flags_env_missing :
    flagParse ({ worldOf [] [] [] with
        envLoad := some "open .env: no such file or directory" } : World).args = .ok 0 "get" ∧
      main { worldOf [] [] [] with envLoad := some "open .env: no such file or directory" } 0 =
        some ⟨[.fatal "[ENV ERROR] open .env: no such file or directory"], .exited 1⟩ ∧
      Status.exitCode (.exited 1) ≠ 0 ∧
      Event.usage ∉ [Event.fatal "[ENV ERROR] open .env: no such file or directory"] :=
  ⟨rfl, by decide, by decide, by decide⟩

/-- C5, amended: when the command line sets no flag, `main` sends no request and
runs no handler; if `Configuration` returns the client, all it does is show
usage and return (exit status 0); if `Configuration` fails, all it does is write
the fatal message and exit with status 1. -/
theorem main_zero_flags (w : World) (fuel : Nat) (type : String)
    (hp : flagParse w.args = .ok 0 type) :
    ∃ o, main w fuel = some o ∧ calls o.trace = [] ∧ (∀ s, Event.print s ∉ o.trace) ∧
      ((Configuration w).status = .returned →
        o = ⟨[.usage], .returned⟩ ∧ o.status.exitCode = 0) ∧
      ((Configuration w).status ≠ .returned →
        ∃ msg, o = ⟨[.fatal msg], .exited 1⟩ ∧ o.status.exitCode = 1) := by
  by_cases hc : (Configuration w).status = .returned
  · refine ⟨⟨[.usage], .returned⟩, ?_, rfl, by simp, fun _ => ⟨rfl, rfl⟩,
      fun h => absurd hc h⟩
    rw [main_configured w fuel hc, hp]
    rfl
  · obtain ⟨msg, _, hm⟩ := main_not_configured w fuel hc
    exact ⟨_, hm, rfl, by simp, fun h => absurd h hc, fun _ => ⟨msg, rfl, rfl⟩⟩

/-- C5 (amended) with an empty command line and a configuration that loads. -/
theorem main_zero_flags_witness :
    flagParse (worldOf [] [] []).args = .ok 0 "get" ∧
      ∃ o, main (worldOf [] [] []) 0 = some o ∧ calls o.trace = [] ∧
        o = ⟨[.usage], .returned⟩ :=
  ⟨rfl, (main_zero_flags (worldOf [] [] []) 0 "get" rfl).elim
    (fun o h => ⟨o, h.1, h.2.1, (h.2.2.2.1 rfl).1⟩)⟩

/-- C6, refuted as stated: with `--type=remove` and an SDK configuration that
does not load, `main` ends fatally and does not show usage. -/
theorem main_unrecognized_config_error :
    flagParse ({ worldOf ["--type=remove"] [] [] with
        loadDefaultConfig := some "failed to load shared config" } : World).args =
        .ok 1 "remove" ∧
      "remove" ∉ operations ∧
      main { worldOf ["--type=remove"] [] [] with
          loadDefaultConfig := some "failed to load shared config" } 0 =
        some ⟨[.fatal "Unable to load SDK config, failed to load shared config"], .exited 1⟩ ∧
      Event.usage ∉ [Event.fatal "Unable to load SDK config, failed to load shared config"] :=
  ⟨rfl, by decide, by decide, by decide⟩

/-- C6, amended: on every command line that does not leave `type` with one of
`get`, `list`, `create`, `delete`, `update`, `test` (`flag.Parse` returns with
another value, or `flag.Parse` itself rejects the command line), `main` sends
no request and runs no handler.  If `Configuration` returns the client, usage is
shown: `main` shows it and returns when `flag.Parse` accepted the command line;
`flag.Parse` shows it and exits, with status 2 after its error line or with
status 0 for `-h`, when it rejected the command line.  If `Configuration`
fails, `main` writes the fatal message and exits with status 1; usage is not
shown. -/
theorem main_unrecognized (w : World) (fuel : Nat)
    (hv : ∀ nflag type, flagParse w.args = .ok nflag type → type ∉ operations) :
    ∃ o, main w fuel = some o ∧ calls o.trace = [] ∧ (∀ s, Event.print s ∉ o.trace) ∧
      ((Configuration w).status = .returned →
        Event.usage ∈ o.trace ∧
        (∀ nflag type, flagParse w.args = .ok nflag type → o = ⟨[.usage], .returned⟩) ∧
        (∀ events code, flagParse w.args = .exit events code →
          o = ⟨events, .exited code⟩ ∧
          ((events = [.usage] ∧ code = 0) ∨
            ∃ msg, events = [.flagError msg, .usage] ∧ code = 2))) ∧
      ((Configuration w).status ≠ .returned →
        ∃ msg, o = ⟨[.fatal msg], .exited 1⟩ ∧ Event.usage ∉ o.trace) := by
  by_cases hc : (Configuration w).status = .returned
  · cases hp : flagParse w.args with
    | ok nflag type =>
      have hnot := hv nflag type hp
      simp only [operations, List.mem_cons, List.mem_singleton, List.not_mem_nil, or_false,
        not_or] at hnot
      obtain ⟨h1, h2, h3, h4, h5, h6⟩ := hnot
      have hm : main w fuel = some ⟨[.usage], .returned⟩ := by
        rw [main_configured w fuel hc, hp]
        by_cases hn : (nflag == 0) = true
        · simp [hn]
        · simp [hn, dispatch, h1, h2, h3, h4, h5, h6]
      refine ⟨_, hm, rfl, by simp, fun _ => ⟨by simp, fun _ _ _ => rfl, ?_⟩,
        fun h => absurd hc h⟩
      intro events code he
      cases he
    | exit events code =>
      have hm : main w fuel = some ⟨events, .exited code⟩ := by
        rw [main_configured w fuel hc, hp]
      have hshape := flagParse_exit w.args events code hp
      refine ⟨_, hm, ?_, ?_, fun _ => ⟨?_, ?_, ?_⟩, fun h => absurd hc h⟩
      · rcases hshape with ⟨he, _⟩ | ⟨msg, he, _⟩ <;> rw [he] <;> rfl
      · rcases hshape with ⟨he, _⟩ | ⟨msg, he, _⟩ <;> simp [he]
      · rcases hshape with ⟨he, _⟩ | ⟨msg, he, _⟩ <;> simp [he]
      · intro nflag type he
        cases he
      · intro events2 code2 he
        cases he
        exact ⟨rfl, hshape⟩
  · obtain ⟨msg, _, hm⟩ := main_not_configured w fuel hc
    exact ⟨_, hm, rfl, by simp, fun h => absurd h hc, fun _ => ⟨msg, rfl, by simp⟩⟩

/-- C6 (amended) with `--type=remove` alone, where `main` shows usage and
returns, and with `--type=remove -x`, where `flag.Parse` rejects `-x`, shows
usage and exits with status 2; the configuration loads in both. -/
theorem main_unrecognized_witness :
    (flagParse (worldOf ["--type=remove"] [] []).args = .ok 1 "remove" ∧
      "remove" ∉ operations ∧
      ∃ o, main (worldOf ["--type=remove"] [] []) 0 = some o ∧ calls o.trace = [] ∧
        o = ⟨[.usage], .returned⟩) ∧
      (flagParse (worldOf ["--type=remove", "-x"] [] []).args =
          .exit [.flagError "flag provided but not defined: -x", .usage] 2 ∧
        ∃ o, main (worldOf ["--type=remove", "-x"] [] []) 0 = some o ∧ calls o.trace = [] ∧
          o = ⟨[.flagError "flag provided but not defined: -x", .usage], .exited 2⟩) :=
  ⟨⟨rfl, by decide,
      (main_unrecognized (worldOf ["--type=remove"] [] []) 0
        (fun nflag type h => by cases h; decide)).elim
        (fun o h => ⟨o, h.1, h.2.1, (h.2.2.2.1 rfl).2.1 1 "remove" rfl⟩)⟩,
    ⟨rfl,
      (main_unrecognized (worldOf ["--type=remove", "-x"] [] []) 0
        (fun nflag type h => by cases h)).elim
        (fun o h => ⟨o, h.1, h.2.1, ((h.2.2.2.1 rfl).2.2 _ _ rfl).1⟩)⟩⟩

theorem drainPages_calls (w : World) (fuel : Nat) :
    ∀ (p : ListEmailTemplatesPaginator) (list : List String),
      ∀ e ∈ (drainPages w fuel p list).1, ∃ r, e = Event.call r := by
  induction fuel with
  | zero => intro p list e he; simp [drainPages] at he
  | succ fuel ih =>
    intro p list e he
    unfold drainPages at he
    by_cases hm : p.HasMorePages = true
    · simp only [hm, if_true] at he
      cases hw : w.listEmailTemplates p.requests p.nextToken with
      | error err =>
        simp only [ListEmailTemplatesPaginator.NextPage, hw, List.mem_singleton] at he
        exact ⟨_, he⟩
      | ok output =>
        simp only [ListEmailTemplatesPaginator.NextPage, hw] at he
        cases ha : appendNames list output.TemplatesMetadata with
        | none =>
          simp only [ha, List.mem_singleton] at he
          exact ⟨_, he⟩
        | some list2 =>
          simp only [ha, List.mem_cons] at he
          rcases he with he | he
          · exact ⟨_, he⟩
          · exact ih _ _ e he
    · simp [hm] at he

theorem GetTemplates_no_usage (w : World) (fuel : Nat) (o : Outcome)
    (h : GetTemplates w fuel = some o) : Event.usage ∉ o.trace := by
  intro hu
  unfold GetTemplates at h
  have hc := drainPages_calls w fuel NewListEmailTemplatesPaginator []
  generalize drainPages w fuel NewListEmailTemplatesPaginator [] = d at h hc
  obtain ⟨tr, res⟩ := d
  have hntr : Event.usage ∉ tr := fun hm => by
    obtain ⟨r, hr⟩ := hc _ hm
    cases hr
  cases res with
  | none => simp at h
  | some dr =>
    cases dr with
    | done list =>
      simp only [] at h
      split at h <;>
        (simp only [Option.some.injEq] at h
         subst h
         simp [hntr] at hu)
    | pageError err =>
      simp only [Option.some.injEq] at h
      subst h
      simp [hntr] at hu
    | panic =>
      simp only [Option.some.injEq] at h
      subst h
      simp [hntr] at hu

theorem SetTemplate_no_usage (w : World) (isCreate : Bool) :
    Event.usage ∉ (SetTemplate w isCreate).trace := by
  cases hj : w.readFile ("./templates/" ++ w.scan 0 ++ ".json") with
  | error err =>
    obtain ⟨e, he⟩ := SetTemplate_unread w isCreate (Or.inl ⟨err, hj⟩)
    simp [he]
  | ok data =>
    cases hh : w.readFile ("./templates/" ++ w.scan 0 ++ ".html") with
    | error err =>
      obtain ⟨e, he⟩ := SetTemplate_unread w isCreate (Or.inr ⟨err, hh⟩)
      simp [he]
    | ok html =>
      rw [(SetTemplate_read w isCreate data html hj hh).2]
      cases isCreate
      · cases hu : w.updateEmailTemplate (w.unmarshal data Template.zero).1.Name
          (w.unmarshal data Template.zero).1.Subject html <;>
          simp [Outcome.after, SetTemplate.send, hu]
      · cases hc : w.createEmailTemplate (w.unmarshal data Template.zero).1.Name
          (w.unmarshal data Template.zero).1.Subject html <;>
          simp [Outcome.after, SetTemplate.send, hc]

theorem SetTemplate_request_kind (w : World) (isCreate : Bool) :
    ∀ r ∈ calls (SetTemplate w isCreate).trace,
      ∃ name subject html, r =
        if isCreate then Request.CreateEmailTemplate name subject html
        else Request.UpdateEmailTemplate name subject html := by
  intro r hr
  cases hj : w.readFile ("./templates/" ++ w.scan 0 ++ ".json") with
  | error err =>
    obtain ⟨e, he⟩ := SetTemplate_unread w isCreate (Or.inl ⟨err, hj⟩)
    rw [he] at hr
    cases hr
  | ok data =>
    cases hh : w.readFile ("./templates/" ++ w.scan 0 ++ ".html") with
    | error err =>
      obtain ⟨e, he⟩ := SetTemplate_unread w isCreate (Or.inr ⟨err, hh⟩)
      rw [he] at hr
      cases hr
    | ok html =>
      rw [SetTemplate_read_calls w isCreate data html hj hh, List.mem_singleton] at hr
      exact ⟨_, _, _, hr⟩

theorem GetTemplate_no_usage (w : World) : Event.usage ∉ (GetTemplate w).trace := by
  simp only [GetTemplate]
  repeat' split
  all_goals simp

theorem DeleteTemplate_no_usage (w : World) : Event.usage ∉ (DeleteTemplate w).trace := by
  simp only [DeleteTemplate]
  split <;> simp

theorem SendEmail_no_usage (w : World) : Event.usage ∉ (SendEmail w).trace := by
  simp only [SendEmail]
  split <;> simp

/-- C10, refuted as stated: with `--type=list` and an env file that does not
load, `main` ends in `Configuration`; the listing handler, which would send a
request, is not run. -/
theorem main_list_env_missing :
    flagParse ({ worldOf ["--type=list"] [] [] with
        envLoad := some "open .env: no such file or directory" } : World).args = .ok 1 "list" ∧
      main { worldOf ["--type=list"] [] [] with
          envLoad := some "open .env: no such file or directory" } 2 =
        some ⟨[.fatal "[ENV ERROR] open .env: no such file or directory"], .exited 1⟩ ∧
      GetTemplates { worldOf ["--type=list"] [] [] with
          envLoad := some "open .env: no such file or directory" } 2 =
        some ⟨[.call (.ListEmailTemplates 10 none), .println "생성된 템플릿이 없습니다."],
          .returned⟩ :=
  ⟨rfl, by decide, by decide⟩

/-- C10, amended: when `Configuration` returned the client and `flag.Parse`
accepted a command line that sets at least one flag, `main` does exactly what
the handler selected by the value of `type` does: `get` is `GetTemplate` (an
explicit `--type=get` is not answered with usage), `list` is `GetTemplates`,
`create` is `SetTemplate` with `isCreate = true`, `delete` is `DeleteTemplate`,
`update` is `SetTemplate` with `isCreate = false`, `test` is `SendEmail`; for
these six values usage is not shown, for any other value usage is all that
happens; the create handler only ever sends create requests, the update
handler only update requests.  When `Configuration` fails, no handler runs:
the run is the fatal message and exit status 1.  When `Configuration` returned
the client and `flag.Parse` rejects the command line, no handler runs either:
the run is what `flag.Parse` writes (its error line and usage with status 2,
or usage alone with status 0 for `-h`). -/
theorem main_runs_handler (w : World) (fuel : Nat) :
    ((Configuration w).status = .returned →
        ∀ nflag type, flagParse w.args = .ok nflag type → nflag ≠ 0 →
          (type = "get" → main w fuel = some (GetTemplate w)) ∧
          (type = "list" → main w fuel = GetTemplates w fuel) ∧
          (type = "create" → main w fuel = some (SetTemplate w true)) ∧
          (type = "delete" → main w fuel = some (DeleteTemplate w)) ∧
          (type = "update" → main w fuel = some (SetTemplate w false)) ∧
          (type = "test" → main w fuel = some (SendEmail w)) ∧
          (type ∈ operations → ∀ o, main w fuel = some o → Event.usage ∉ o.trace) ∧
          (type ∉ operations → main w fuel = some ⟨[.usage], .returned⟩)) ∧
      (∀ r ∈ calls (SetTemplate w true).trace,
        ∃ name subject html, r = .CreateEmailTemplate name subject html) ∧
      (∀ r ∈ calls (SetTemplate w false).trace,
        ∃ name subject html, r = .UpdateEmailTemplate name subject html) ∧
      ((Configuration w).status ≠ .returned →
        ∃ msg, main w fuel = some ⟨[.fatal msg], .exited 1⟩) ∧
      ((Configuration w).status = .returned →
        ∀ events code, flagParse w.args = .exit events code →
          main w fuel = some ⟨events, .exited code⟩ ∧
          ((events = [.usage] ∧ code = 0) ∨
            ∃ msg, events = [.flagError msg, .usage] ∧ code = 2)) := by
  refine ⟨?_, ?_, ?_, ?_, ?_⟩
  · intro hc nflag type hp hn
    have hm : main w fuel = dispatch w fuel type := by
      rw [main_configured w fuel hc, hp]
      simp [hn]
    have h1 : type = "get" → main w fuel = some (GetTemplate w) := by
      rintro rfl; rw [hm]; rfl
    have h2 : type = "list" → main w fuel = GetTemplates w fuel := by
      rintro rfl; rw [hm]; rfl
    have h3 : type = "create" → main w fuel = some (SetTemplate w true) := by
      rintro rfl; rw [hm]; rfl
    have h4 : type = "delete" → main w fuel = some (DeleteTemplate w) := by
      rintro rfl; rw [hm]; rfl
    have h5 : type = "update" → main w fuel = some (SetTemplate w false) := by
      rintro rfl; rw [hm]; rfl
    have h6 : type = "test" → main w fuel = some (SendEmail w) := by
      rintro rfl; rw [hm]; rfl
    refine ⟨h1, h2, h3, h4, h5, h6, ?_, ?_⟩
    · intro hop o ho
      simp only [operations, List.mem_cons, List.mem_singleton, List.not_mem_nil,
        or_false] at hop
      rcases hop with h | h | h | h | h | h
      · rw [h1 h] at ho; cases ho; exact GetTemplate_no_usage w
      · rw [h2 h] at ho; exact GetTemplates_no_usage w fuel o ho
      · rw [h3 h] at ho; cases ho; exact SetTemplate_no_usage w true
      · rw [h4 h] at ho; cases ho; exact DeleteTemplate_no_usage w
      · rw [h5 h] at ho; cases ho; exact SetTemplate_no_usage w false
      · rw [h6 h] at ho; cases ho; exact SendEmail_no_usage w
    · intro hnot
      simp only [operations, List.mem_cons, List.mem_singleton, List.not_mem_nil, or_false,
        not_or] at hnot
      obtain ⟨g1, g2, g3, g4, g5, g6⟩ := hnot
      rw [hm]
      simp [dispatch, g1, g2, g3, g4, g5, g6]
  · intro r hr
    simpa using SetTemplate_request_kind w true r hr
  · intro r hr
    simpa using SetTemplate_request_kind w false r hr
  · intro hc
    obtain ⟨msg, _, hm⟩ := main_not_configured w fuel hc
    exact ⟨msg, hm⟩
  · intro hc events code hp
    exact ⟨by rw [main_configured w fuel hc, hp], flagParse_exit w.args events code hp⟩

/-- C10 (amended) three times: `--type create` with the `welcome` files, where
`main` is the create handler and sends the create request; `--type=list -x`,
where `flag.Parse` rejects `-x` and no handler runs; `--type=list` with an SDK
configuration that does not load, where no handler runs. -/
theorem main_runs_handler_witness :
    ((Configuration (worldOf ["--type", "create"] ["welcome"] welcomeFiles)).status = .returned ∧
      flagParse (worldOf ["--type", "create"] ["welcome"] welcomeFiles).args = .ok 1 "create" ∧
      main (worldOf ["--type", "create"] ["welcome"] welcomeFiles) 0 =
        some (SetTemplate (worldOf ["--type", "create"] ["welcome"] welcomeFiles) true) ∧
      calls (SetTemplate (worldOf ["--type", "create"] ["welcome"] welcomeFiles) true).trace =
        [.CreateEmailTemplate "welcome" "Hi" "<p>Hello</p>"]) ∧
      (flagParse (worldOf ["--type=list", "-x"] [] []).args =
          .exit [.flagError "flag provided but not defined: -x", .usage] 2 ∧
        main (worldOf ["--type=list", "-x"] [] []) 2 =
          some ⟨[.flagError "flag provided but not defined: -x", .usage], .exited 2⟩) ∧
      ((Configuration { worldOf ["--type=list"] [] [] with
          loadDefaultConfig := some "failed to load shared config" }).status ≠ .returned ∧
        ∃ msg, main { worldOf ["--type=list"] [] [] with
            loadDefaultConfig := some "failed to load shared config" } 2 =
          some ⟨[.fatal msg], .exited 1⟩) :=
  ⟨⟨rfl, rfl,
      ((main_runs_handler (worldOf ["--type", "create"] ["welcome"] welcomeFiles) 0).1
        rfl 1 "create" rfl (by decide)).2.2.1 rfl,
      by decide⟩,
    ⟨rfl, ((main_runs_handler (worldOf ["--type=list", "-x"] [] []) 2).2.2.2.2 rfl _ _ rfl).1⟩,
    ⟨by decide,
      (main_runs_handler { worldOf ["--type=list"] [] [] with
        loadDefaultConfig := some "failed to load shared config" } 2).2.2.2.1 (by decide)⟩⟩

end SesTemplates
